/-
Verification of the target-size DPI search and conversion-fallback logic of
the PDF-Zipper repository (src/pdf_zipper/core.py), via a shallow embedding.

Conventions of the embedding:
* Python floats are modelled by `ℚ`.  All DPI values appearing in the search
  are dyadic rationals obtained from the integers 30 and 300 by repeated
  averaging, so rational arithmetic reproduces the float computation exactly.
* `bytes` objects and file contents are modelled by `List ℕ`; a file's size
  in bytes is the length of that list, matching `len(...)` / `os.path.getsize`.
* The external collaborators (PyMuPDF page rendering, PIL image encoding,
  the PDF→PPTX builder `convert_to_ppt`, external conversion tools) are
  parameters of the embedded functions: the search logic is translated
  literally, the collaborators stay abstract oracles, exactly as the spec
  scopes them out.
* Python's `abs` is `pyAbs`, `int()` on a nonnegative float is `pyInt`.
* Fallible steps return `Option`; a Python exception that escapes a function
  is an `Except.error` / a `none` result flag, as noted at each definition.
-/
import Mathlib

/-- Python's `abs` on a float, on the rational model. -/
def pyAbs (q : ℚ) : ℚ := if q < 0 then -q else q

/-- Python's `int()` applied to the nonnegative floats appearing here
(truncation towards zero, i.e. floor for nonnegative arguments). -/
def pyInt (q : ℚ) : ℤ := ⌊q⌋

/-- `n / (1024 * 1024)`: a byte count expressed in megabytes, as computed by
`len(pdf_data) / (1024 * 1024)` and `os.path.getsize(...) / (1024 * 1024)`. -/
def mbOfBytes (n : ℕ) : ℚ := (n : ℚ) / (1024 * 1024)

/-- Size in MB of an in-memory byte string (`len(pdf_data) / (1024*1024)`). -/
def sizeMB (bs : List ℕ) : ℚ := mbOfBytes bs.length

/-- `_generate_pdf_data` (core.py:67-104).  A document is the list of its
pages; each page is the function taking the pixmap DPI (`int(dpi)`) to the
rendered bitmap, or `none` when `get_pixmap`/`frombytes` raises (the page is
then skipped with a warning).  `build` is the PIL `save` call assembling the
successfully rendered images at resolution `dpi` into PDF bytes.  Returns
`none` when no page rendered (`if not image_list`). -/
def generatePdfData (doc : List (ℤ → Option ℕ)) (build : List ℕ → ℚ → List ℕ)
    (dpi : ℚ) : Option (List ℕ) :=
  let image_list := doc.filterMap (fun page => page (pyInt dpi))
  if image_list.isEmpty then none
  else some (build image_list dpi)

/-- The mutable state of `_find_optimal_dpi` (core.py:125-126). -/
structure SearchState where
  dpi_low : ℚ
  dpi_high : ℚ
  best_dpi : ℚ
  best_pdf_data : Option (List ℕ)
deriving DecidableEq, Repr

/-- One recorded trial of the search: the `dpi_guess` tried and the pdf data
produced there (`none` when `not pdf_data`, i.e. generation failed). -/
abbrev Trial := ℚ × Option (List ℕ)

/-- The loop body of `_find_optimal_dpi` (core.py:131-162), by structural
recursion on the remaining iteration count of `for i in range(ITERATIONS)`.
Besides the final state it returns the instrumentation trace: for every
executed iteration, the trial record and the search state holding after that
bisection step. -/
def findOptimalDpiGo (gen : ℚ → Option (List ℕ)) (target_size_mb tolerance : ℚ) :
    ℕ → SearchState → SearchState × List (Trial × SearchState)
  | 0, s => (s, [])
  | n + 1, s =>
    -- dpi_guess = (dpi_low + dpi_high) / 2
    if (s.dpi_low + s.dpi_high) / 2 < s.dpi_low + 1 then (s, [])  -- break
    else
      match gen ((s.dpi_low + s.dpi_high) / 2) with
      | none =>
        -- `if not pdf_data: dpi_high = dpi_guess; continue`
        let s' : SearchState := { s with dpi_high := (s.dpi_low + s.dpi_high) / 2 }
        let r := findOptimalDpiGo gen target_size_mb tolerance n s'
        (r.1, (((s.dpi_low + s.dpi_high) / 2, none), s') :: r.2)
      | some pdf_data =>
        if pdf_data.isEmpty then
          -- empty bytes are falsy in Python: same branch as generation failure
          let s' : SearchState := { s with dpi_high := (s.dpi_low + s.dpi_high) / 2 }
          let r := findOptimalDpiGo gen target_size_mb tolerance n s'
          (r.1, (((s.dpi_low + s.dpi_high) / 2, none), s') :: r.2)
        else
          if pyAbs (sizeMB pdf_data - target_size_mb) / target_size_mb ≤ tolerance then
            -- within tolerance: record as best and break
            let s' : SearchState := { s with
              best_dpi := (s.dpi_low + s.dpi_high) / 2,
              best_pdf_data := some pdf_data }
            (s', [(((s.dpi_low + s.dpi_high) / 2, some pdf_data), s')])
          else if target_size_mb < sizeMB pdf_data then
            -- current_size_mb > target_size_mb: shrink the upper bound
            let s' : SearchState := { s with dpi_high := (s.dpi_low + s.dpi_high) / 2 }
            let r := findOptimalDpiGo gen target_size_mb tolerance n s'
            (r.1, (((s.dpi_low + s.dpi_high) / 2, some pdf_data), s') :: r.2)
          else
            -- raise the lower bound and update best-so-far
            let s' : SearchState := { s with
              dpi_low := (s.dpi_low + s.dpi_high) / 2,
              best_dpi := (s.dpi_low + s.dpi_high) / 2,
              best_pdf_data := some pdf_data }
            let r := findOptimalDpiGo gen target_size_mb tolerance n s'
            (r.1, (((s.dpi_low + s.dpi_high) / 2, some pdf_data), s') :: r.2)

/-- `ITERATIONS = 7` (core.py:128). -/
def ITERATIONS : ℕ := 7

/-- `dpi_low, dpi_high = 30, 300; best_dpi, best_pdf_data = dpi_low, None`
(core.py:125-126). -/
def initialSearchState : SearchState :=
  { dpi_low := 30, dpi_high := 300, best_dpi := 30, best_pdf_data := none }

/-- `_find_optimal_dpi` with its instrumentation trace. `gen` abstracts
`_generate_pdf_data(doc, dpi_guess, logger_func)` on the fixed open document. -/
def findOptimalDpiRun (gen : ℚ → Option (List ℕ)) (target_size_mb tolerance : ℚ) :
    SearchState × List (Trial × SearchState) :=
  findOptimalDpiGo gen target_size_mb tolerance ITERATIONS initialSearchState

/-- `_find_optimal_dpi` (core.py:107-162): returns `(best_dpi, best_pdf_data)`. -/
def findOptimalDpi (gen : ℚ → Option (List ℕ)) (target_size_mb tolerance : ℚ) :
    ℚ × Option (List ℕ) :=
  ((findOptimalDpiRun gen target_size_mb tolerance).1.best_dpi,
   (findOptimalDpiRun gen target_size_mb tolerance).1.best_pdf_data)

example :
    findOptimalDpi (fun _ => none) 1 (1 / 20) = (30, none) := by
  norm_num [findOptimalDpi, findOptimalDpiRun, findOptimalDpiGo, ITERATIONS,
    initialSearchState, sizeMB, mbOfBytes, pyAbs]

example :
    (findOptimalDpiRun (fun _ => none) 1 (1 / 20)).2.length = 7 := by
  norm_num [findOptimalDpiRun, findOptimalDpiGo, ITERATIONS,
    initialSearchState, sizeMB, mbOfBytes, pyAbs]

example :
    findOptimalDpi (fun _ => some [0]) 1 (1 / 20) =
      (19065 / 64, some [0]) := by
  norm_num [findOptimalDpi, findOptimalDpiRun, findOptimalDpiGo, ITERATIONS,
    initialSearchState, sizeMB, mbOfBytes, pyAbs]

/-! ## The scratch-file workspace

`_find_optimal_dpi_for_pptx` and the auto-compress operations work through
`tempfile.NamedTemporaryFile(delete=False)`, `os.path.exists`,
`os.path.getsize` and `os.unlink`.  The temporary directory is modelled as a
ledger of currently existing scratch files: unique identifiers (allocation
order) paired with their byte contents. -/

/-- The state of the temporary directory. -/
structure FS where
  next : ℕ
  files : List (ℕ × List ℕ)
deriving DecidableEq, Repr

/-- `tempfile.NamedTemporaryFile(delete=False)` followed by writing
`content` to the fresh file (an empty `content` models a file that was
created but not yet written). -/
def FS.alloc (fs : FS) (content : List ℕ) : ℕ × FS :=
  (fs.next, { next := fs.next + 1, files := fs.files ++ [(fs.next, content)] })

/-- `os.path.exists` on a scratch file. -/
def FS.pathExists (fs : FS) (f : ℕ) : Bool :=
  fs.files.any (fun p => p.1 == f)

/-- `open(path, "wb").write(content)` on an existing scratch file. -/
def FS.write (fs : FS) (f : ℕ) (content : List ℕ) : FS :=
  { fs with files := fs.files.map (fun p => if p.1 == f then (f, content) else p) }

/-- `os.path.getsize` on a scratch file. -/
def FS.getsize (fs : FS) (f : ℕ) : ℕ :=
  (((fs.files.find? (fun p => p.1 == f)).map (fun p => p.2.length)).getD 0)

/-- The byte contents of a scratch file (used to model `shutil.move`). -/
def FS.contentOf (fs : FS) (f : ℕ) : List ℕ :=
  (((fs.files.find? (fun p => p.1 == f)).map (fun p => p.2)).getD [])

/-- `os.unlink` on a scratch file. -/
def FS.unlink (fs : FS) (f : ℕ) : FS :=
  { fs with files := fs.files.filter (fun p => p.1 != f) }

/-- The empty temporary directory at the start of one top-level operation. -/
def FS.empty : FS := { next := 0, files := [] }

/-- The mutable state of `_find_optimal_dpi_for_pptx` (core.py:183-184);
`best_pptx_path` holds the identifier of the retained scratch file. -/
structure PState where
  dpi_low : ℚ
  dpi_high : ℚ
  best_dpi : ℚ
  best_pptx_path : Option ℕ
deriving DecidableEq, Repr

/-- `if best_pptx_path and os.path.exists(best_pptx_path): os.unlink(...)`
(core.py:227-228 and 239-240). -/
def unlinkBest (s : PState) (fs : FS) : FS :=
  match s.best_pptx_path with
  | none => fs
  | some b => if fs.pathExists b then fs.unlink b else fs

/-- Result of running (a suffix of) the `_find_optimal_dpi_for_pptx` loop:
`state` is the final search state, or `none` when an exception escaped the
loop (the only uncaught exception source is `convert_to_ppt`); `fs` is the
temporary directory at exit; `posts` records the search state after each
completed bisection step. -/
structure PRun where
  state : Option PState
  fs : FS
  posts : List PState
deriving DecidableEq, Repr

/-- The loop body of `_find_optimal_dpi_for_pptx` (core.py:189-249).
`gen` abstracts `_generate_pdf_data`; `convert` abstracts
`convert_to_ppt(temp_pdf_path, temp_pptx_path, int(dpi_guess), ...)`, taking
the integer DPI and the trial's PDF bytes to the PPTX bytes it saves at the
destination, or `Except.error` when it raises (that exception is not caught
by the loop: only the `finally` deleting the temporary PDF runs). -/
def findOptimalDpiForPptxGo (gen : ℚ → Option (List ℕ))
    (convert : ℤ → List ℕ → Except Unit (List ℕ)) (target_size_mb tolerance : ℚ) :
    ℕ → PState → FS → PRun
  | 0, s, fs => { state := some s, fs := fs, posts := [] }
  | n + 1, s, fs =>
    if (s.dpi_low + s.dpi_high) / 2 < s.dpi_low + 1 then
      { state := some s, fs := fs, posts := [] }  -- break
    else
      match gen ((s.dpi_low + s.dpi_high) / 2) with
      | none =>
        -- `if not pdf_data: dpi_high = dpi_guess; continue`
        let s' : PState := { s with dpi_high := (s.dpi_low + s.dpi_high) / 2 }
        let r := findOptimalDpiForPptxGo gen convert target_size_mb tolerance n s' fs
        { r with posts := s' :: r.posts }
      | some pdf_data =>
        if pdf_data.isEmpty then
          let s' : PState := { s with dpi_high := (s.dpi_low + s.dpi_high) / 2 }
          let r := findOptimalDpiForPptxGo gen convert target_size_mb tolerance n s' fs
          { r with posts := s' :: r.posts }
        else
          -- NamedTemporaryFile(".pdf") then `f.write(pdf_data)`
          let tpdf := (fs.alloc pdf_data).1
          let fs1 := (fs.alloc pdf_data).2
          -- NamedTemporaryFile(".pptx"): created, nothing written yet
          let tpptx := (fs1.alloc []).1
          let fs2 := (fs1.alloc []).2
          match convert (pyInt ((s.dpi_low + s.dpi_high) / 2)) pdf_data with
          | Except.error _ =>
            -- convert_to_ppt raised: `finally` unlinks the temporary PDF,
            -- the exception propagates out of the search
            { state := none, fs := fs2.unlink tpdf, posts := [] }
          | Except.ok pptx_data =>
            -- convert_to_ppt saved the presentation at temp_pptx_path
            let fs3 := fs2.write tpptx pptx_data
            if fs3.pathExists tpptx then
              if pyAbs (mbOfBytes (fs3.getsize tpptx) - target_size_mb) / target_size_mb
                  ≤ tolerance then
                -- within tolerance: drop the previous best, keep this one, break
                let s' : PState := { s with
                  best_dpi := (s.dpi_low + s.dpi_high) / 2,
                  best_pptx_path := some tpptx }
                { state := some s', fs := (unlinkBest s fs3).unlink tpdf, posts := [s'] }
              else if target_size_mb < mbOfBytes (fs3.getsize tpptx) then
                -- oversized: shrink the upper bound, delete this trial's PPTX
                let s' : PState := { s with dpi_high := (s.dpi_low + s.dpi_high) / 2 }
                let r := findOptimalDpiForPptxGo gen convert target_size_mb tolerance n s'
                  ((fs3.unlink tpptx).unlink tpdf)
                { r with posts := s' :: r.posts }
              else
                -- raise the lower bound, replace the previous best
                let s' : PState := { s with
                  dpi_low := (s.dpi_low + s.dpi_high) / 2,
                  best_dpi := (s.dpi_low + s.dpi_high) / 2,
                  best_pptx_path := some tpptx }
                let r := findOptimalDpiForPptxGo gen convert target_size_mb tolerance n s'
                  ((unlinkBest s fs3).unlink tpdf)
                { r with posts := s' :: r.posts }
            else
              -- `Failed to generate PPTX`: shrink the upper bound (note: the
              -- trial PPTX is not unlinked on this branch in the source)
              let s' : PState := { s with dpi_high := (s.dpi_low + s.dpi_high) / 2 }
              let r := findOptimalDpiForPptxGo gen convert target_size_mb tolerance n s'
                (fs3.unlink tpdf)
              { r with posts := s' :: r.posts }

/-- `dpi_low, dpi_high = 30, 300; best_dpi, best_pptx_path = dpi_low, None`
(core.py:183-184). -/
def initialPState : PState :=
  { dpi_low := 30, dpi_high := 300, best_dpi := 30, best_pptx_path := none }

/-- `_find_optimal_dpi_for_pptx` (core.py:165-251), run on a temporary
directory `fs`. -/
def findOptimalDpiForPptx (gen : ℚ → Option (List ℕ))
    (convert : ℤ → List ℕ → Except Unit (List ℕ)) (target_size_mb tolerance : ℚ)
    (fs : FS) : PRun :=
  findOptimalDpiForPptxGo gen convert target_size_mb tolerance ITERATIONS initialPState fs

/-! ## The auto-compress operations (core.py:254-511)

Each operation is modelled on the byte contents of its input file; its result
records the bytes written at the output path (`none` when the operation
returned without writing an output), whether an exception escaped the
operation, the temporary directory it leaves behind, and — for the
PPTX-target operation — the bisection steps its search performed. -/

/-- `autocompress_pdf` (core.py:254-316) on an existing input file whose
bytes are `input`.  Returns the bytes written at the output path, or `none`
when the operation logged an error and returned without output.  `gen`
abstracts `_generate_pdf_data` on the opened document (the regeneration at
`best_dpi` after the search reopens the same file, so it consults the same
oracle). -/
def autocompressPdf (input : List ℕ) (target_size_mb tolerance : ℚ)
    (gen : ℚ → Option (List ℕ)) : Option (List ℕ) :=
  if sizeMB input ≤ target_size_mb then
    -- `Target size is not smaller than the original. Copying file directly.`
    some input
  else
    match (findOptimalDpiRun gen target_size_mb tolerance).1.best_pdf_data with
    | some best_pdf_data => some best_pdf_data
    | none =>
      -- regenerate once more at the recorded best DPI
      match gen (findOptimalDpiRun gen target_size_mb tolerance).1.best_dpi with
      | none => none  -- `Failed to generate final PDF.`
      | some best_pdf_data =>
        if best_pdf_data.isEmpty then none else some best_pdf_data

/-- `autocompress_pptx` (core.py:319-415) on an existing input deck whose
bytes are `input`.  `pptxToPdf` is the outcome of step 1
(`convert_pptx_to_pdf` into the temporary PDF: the bytes it leaves there, or
`none` when no file was produced); `gen` abstracts `_generate_pdf_data` on
that temporary PDF; `pdfToPptx` abstracts `convert_to_ppt` at
`int(best_dpi)` on the optimized PDF bytes (the bytes it saves at the output
path, `none` when no output file was created). -/
def autocompressPptx (input : List ℕ) (target_size_mb tolerance : ℚ)
    (pptxToPdf : Option (List ℕ)) (gen : ℚ → Option (List ℕ))
    (pdfToPptx : ℤ → List ℕ → Option (List ℕ)) : Option (List ℕ) :=
  if sizeMB input ≤ target_size_mb then
    -- `Target size is not smaller than the original. Copying file directly.`
    some input
  else
    match pptxToPdf with
    | none => none  -- `Failed to convert PPTX to PDF.`
    | some _ =>
      match (findOptimalDpiRun gen target_size_mb tolerance).1.best_pdf_data with
      | some best_pdf_data =>
        pdfToPptx (pyInt (findOptimalDpiRun gen target_size_mb tolerance).1.best_dpi)
          best_pdf_data
      | none =>
        match gen (findOptimalDpiRun gen target_size_mb tolerance).1.best_dpi with
        | none => none  -- `Failed to generate optimized PDF.`
        | some best_pdf_data =>
          if best_pdf_data.isEmpty then none
          else
            pdfToPptx (pyInt (findOptimalDpiRun gen target_size_mb tolerance).1.best_dpi)
              best_pdf_data

/-- The observable outcome of one `autocompress_pdf_to_pptx` call. -/
structure OpResult where
  output : Option (List ℕ)
  raised : Bool
  fs : FS
  searchPosts : List PState
deriving DecidableEq, Repr

/-- `autocompress_pdf_to_pptx` (core.py:418-477) on an existing input PDF
whose bytes are `input`.  Note there is no size pass-through check: the DPI
search runs unconditionally.  On success the best scratch PPTX is
`shutil.move`d to the output path (leaving the temporary directory). -/
def autocompressPdfToPptx (input : List ℕ) (target_size_mb tolerance : ℚ)
    (gen : ℚ → Option (List ℕ)) (convert : ℤ → List ℕ → Except Unit (List ℕ)) :
    OpResult :=
  -- `original_size_mb` is computed for logging only; it never guards the search
  let _original_size_mb := sizeMB input
  let r := findOptimalDpiForPptx gen convert target_size_mb tolerance FS.empty
  match r.state with
  | none =>
    -- the exception from the search propagates out of the operation
    { output := none, raised := true, fs := r.fs, searchPosts := r.posts }
  | some s =>
    match s.best_pptx_path with
    | none => { output := none, raised := false, fs := r.fs, searchPosts := r.posts }
    | some best =>
      if r.fs.pathExists best then
        { output := some (r.fs.contentOf best), raised := false,
          fs := r.fs.unlink best, searchPosts := r.posts }
      else
        { output := none, raised := false, fs := r.fs, searchPosts := r.posts }

/-! ## The conversion fallback chain (core.py:655-809) -/

/-- The observable behaviour of one external-tool invocation: `exitOk` is
true when the subprocess ran and exited without error (no
`FileNotFoundError`, `CalledProcessError`, `TimeoutExpired` or other
exception); `produced` is the size of the destination file the tool left
behind, when that file now exists. -/
structure ToolRun where
  exitOk : Bool
  produced : Option ℕ
deriving DecidableEq, Repr

/-- `_try_libreoffice_conversion` (core.py:682-723): any raise/timeout/
nonzero exit is caught internally and yields `False`; after a clean run the
converted file is renamed onto the destination and the function returns
whether it exists.  No size check is performed. -/
def tryLibreofficeConversion (r : ToolRun) : Bool :=
  r.exitOk && r.produced.isSome

/-- `_try_unoconv_conversion` (core.py:726-746): same structure; returns
`os.path.exists(output_pdf)` after a clean run, with no size check. -/
def tryUnoconvConversion (r : ToolRun) : Bool :=
  r.exitOk && r.produced.isSome

/-- What the spec calls a successful `try` step: "tool exits without error
AND destination file now exists with nonzero size".  Modelled from the
spec's words, for comparison with the source's success tests above. -/
def specStrategySuccess (r : ToolRun) : Prop :=
  r.exitOk = true ∧ ∃ n, r.produced = some n ∧ n ≠ 0

instance (r : ToolRun) : Decidable (specStrategySuccess r) := by
  unfold specStrategySuccess
  exact inferInstance

/-- One strategy of `_convert_pptx_to_pdf_cross_platform`'s loop, as the
chain observes it: either `conversion_func` itself raised (caught by the
`except` in the loop, core.py:673-675), or it ran to completion observing a
tool run. -/
inductive StrategyOutcome
  | raises
  | run (r : ToolRun)
deriving DecidableEq, Repr

/-- One `try` step of the chain: `some size` when the strategy succeeded
(the chain then returns with the tool-produced destination file of that
size), `none` when it soft-failed and control proceeds. -/
def chainStep (success : ToolRun → Bool) : StrategyOutcome → Option ℕ
  | StrategyOutcome.raises => none
  | StrategyOutcome.run r => if success r then some (r.produced.getD 0) else none

/-- Python's `str.strip()`, on text modelled as a character list. -/
def pyStrip (t : List Char) : List Char :=
  ((t.dropWhile Char.isWhitespace).reverse.dropWhile Char.isWhitespace).reverse

/-- A slide of the input deck: the `text` attribute of each of its shapes in
order (`none` for a shape with no `text` attribute).  Texts are modelled as
character lists. -/
structure Slide where
  shapes : List (Option (List Char))
deriving DecidableEq, Repr

/-- One page written by the text-reconstruction fallback: the number `i+1`
shown in its `Slide {i+1}` heading textbox, the inserted text boxes, and the
reduced-fidelity warning box. -/
structure Page where
  slideNumber : ℕ
  texts : List (List Char)
  warning : String
deriving DecidableEq, Repr

/-- The per-slide text loop of `_convert_pptx_fallback_method`
(core.py:777-786): starting from `y_position = 120`, each shape with a
nonempty stripped `text` is inserted and advances `y_position` by 60; after
an insertion pushing `y_position` past 750 the loop breaks. -/
def collectSlideTexts : ℕ → List (Option (List Char)) → List (List Char)
  | _, [] => []
  | y, none :: rest => collectSlideTexts y rest
  | y, some t :: rest =>
    if pyStrip t ≠ [] then
      if y + 60 > 750 then [pyStrip t]
      else pyStrip t :: collectSlideTexts (y + 60) rest
    else collectSlideTexts y rest

/-- The reduced-fidelity marker inserted on every fallback page
(core.py:789-795). -/
def fallbackWarning : String :=
  "⚠️ This is a text-only conversion. For full styling, install LibreOffice."

/-- The page-construction loop of `_convert_pptx_fallback_method`
(core.py:767-795), carrying the `enumerate` index. -/
def fallbackPages : ℕ → List Slide → List Page
  | _, [] => []
  | i, sl :: rest =>
    { slideNumber := i + 1,
      texts := collectSlideTexts 120 sl.shapes,
      warning := fallbackWarning } :: fallbackPages (i + 1) rest

/-- `_convert_pptx_fallback_method` (core.py:750-809): reads the deck,
errors out (producing no file) when it has no slides, otherwise writes one
page per slide. -/
def convertPptxFallbackMethod (slides : List Slide) : Option (List Page) :=
  if slides.length = 0 then none  -- `No slides found in presentation`
  else some (fallbackPages 0 slides)

/-- The paginated-document artifact left at the destination path by the
chain: either a tool-produced PDF (observed through its size) or the pages
written by the text-reconstruction fallback. -/
abbrev ChainOutput := ℕ ⊕ List Page

/-- `_convert_pptx_to_pdf_cross_platform` (core.py:655-679): try
LibreOffice, then unoconv — any exception from a strategy is caught and the
loop continues — and fall back to text reconstruction when both soft-fail.
`lo` and `uo` are the outcomes of the two strategies on this host. -/
def convertPptxToPdfCrossPlatform (lo uo : StrategyOutcome) (slides : List Slide) :
    Option ChainOutput :=
  match chainStep tryLibreofficeConversion lo with
  | some n => some (Sum.inl n)
  | none =>
    match chainStep tryUnoconvConversion uo with
    | some n => some (Sum.inl n)
    | none => (convertPptxFallbackMethod slides).map Sum.inr

example :
    convertPptxToPdfCrossPlatform (StrategyOutcome.run { exitOk := false, produced := none })
      StrategyOutcome.raises [{ shapes := [some [' ', 'h', 'i', ' '], none] }] =
      some (Sum.inr [⟨1, [['h', 'i']], fallbackWarning⟩]) := by decide

/-! ## Structural lemmas about the PDF-variant search loop -/

theorem findOptimalDpiGo_length_le (gen : ℚ → Option (List ℕ)) (target tol : ℚ) :
    ∀ n s, ((findOptimalDpiGo gen target tol n s).2).length ≤ n := by
  intro n
  induction n with
  | zero => intro s; simp [findOptimalDpiGo]
  | succ n ih =>
    intro s
    rw [findOptimalDpiGo]
    split
    · simp
    · split
      · simpa using Nat.succ_le_succ (ih _)
      · split
        · simpa using Nat.succ_le_succ (ih _)
        · split
          · simp
          · split
            · simpa using Nat.succ_le_succ (ih _)
            · simpa using Nat.succ_le_succ (ih _)

theorem findOptimalDpiGo_trials_lb (gen : ℚ → Option (List ℕ)) (target tol : ℚ) :
    ∀ n s d r, (d, r) ∈ ((findOptimalDpiGo gen target tol n s).2).map Prod.fst →
      s.dpi_low + 1 ≤ d := by
  intro n
  induction n with
  | zero => intro s d r h; simp [findOptimalDpiGo] at h
  | succ n ih =>
    intro s d r h
    rw [findOptimalDpiGo] at h
    split at h
    · simp at h
    · rename_i hconv
      rw [not_lt] at hconv
      split at h
      · simp only [List.map_cons, List.mem_cons, Prod.mk.injEq] at h
        rcases h with ⟨h1, _⟩ | h
        · exact h1 ▸ hconv
        · have h2 := ih _ d r h
          exact h2
      · split at h
        · simp only [List.map_cons, List.mem_cons, Prod.mk.injEq] at h
          rcases h with ⟨h1, _⟩ | h
          · exact h1 ▸ hconv
          · have h2 := ih _ d r h
            exact h2
        · split at h
          · simp only [List.map_cons, List.mem_cons, Prod.mk.injEq, List.map_nil,
              List.not_mem_nil, or_false] at h
            exact h.1 ▸ hconv
          · split at h
            · simp only [List.map_cons, List.mem_cons, Prod.mk.injEq] at h
              rcases h with ⟨h1, _⟩ | h
              · exact h1 ▸ hconv
              · have h2 := ih _ d r h
                exact h2
            · simp only [List.map_cons, List.mem_cons, Prod.mk.injEq] at h
              rcases h with ⟨h1, _⟩ | h
              · exact h1 ▸ hconv
              · -- recursive call starts from dpi_low = dpi_guess
                have h2 := ih _ _ _ h
                simp only at h2
                have : s.dpi_low + 1 ≤ (s.dpi_low + s.dpi_high) / 2 + 1 :=
                  by linarith
                exact le_trans this h2

/-- The spec's search-state invariant: bounds ordered, bounds inside
`[30, 300]`, and `dpi_low ≤ best_dpi ≤ dpi_high`. -/
def searchStateInv (s : SearchState) : Prop :=
  30 ≤ s.dpi_low ∧ s.dpi_low ≤ s.dpi_high ∧ s.dpi_high ≤ 300 ∧
    s.dpi_low ≤ s.best_dpi ∧ s.best_dpi ≤ s.dpi_high

/-- The stronger property holding while the loop is still running: inside
the loop, `best_dpi` always equals `dpi_low` (they are updated together). -/
def searchLoopInv (s : SearchState) : Prop :=
  30 ≤ s.dpi_low ∧ s.dpi_low ≤ s.dpi_high ∧ s.dpi_high ≤ 300 ∧
    s.best_dpi = s.dpi_low

theorem searchLoopInv_inv {s : SearchState} (hs : searchLoopInv s) :
    searchStateInv s :=
  ⟨hs.1, hs.2.1, hs.2.2.1, le_of_eq hs.2.2.2.symm, hs.2.2.2 ▸ hs.2.1⟩

theorem findOptimalDpiGo_inv (gen : ℚ → Option (List ℕ)) (target tol : ℚ) :
    ∀ n s, searchLoopInv s →
      searchStateInv (findOptimalDpiGo gen target tol n s).1 ∧
      ∀ p ∈ (findOptimalDpiGo gen target tol n s).2, searchStateInv p.2 := by
  intro n
  induction n with
  | zero =>
    intro s hs
    exact ⟨searchLoopInv_inv hs, by simp [findOptimalDpiGo]⟩
  | succ n ih =>
    intro s hs
    obtain ⟨h30, hlh, h300, hbl⟩ := hs
    rw [findOptimalDpiGo]
    split
    · exact ⟨searchLoopInv_inv ⟨h30, hlh, h300, hbl⟩, by simp⟩
    · rename_i hconv
      rw [not_lt] at hconv
      split
      · -- generation failed: dpi_high = dpi_guess
        have hs' : searchLoopInv { s with dpi_high := (s.dpi_low + s.dpi_high) / 2 } :=
          ⟨h30, show s.dpi_low ≤ (s.dpi_low + s.dpi_high) / 2 by linarith,
            show (s.dpi_low + s.dpi_high) / 2 ≤ 300 by linarith, hbl⟩
        have hrec := ih _ hs'
        refine ⟨hrec.1, ?_⟩
        intro p hp
        rcases List.mem_cons.mp hp with rfl | hp
        · exact searchLoopInv_inv hs'
        · exact hrec.2 p hp
      · split
        · -- empty pdf bytes: same branch
          have hs' : searchLoopInv { s with dpi_high := (s.dpi_low + s.dpi_high) / 2 } :=
            ⟨h30, show s.dpi_low ≤ (s.dpi_low + s.dpi_high) / 2 by linarith,
              show (s.dpi_low + s.dpi_high) / 2 ≤ 300 by linarith, hbl⟩
          have hrec := ih _ hs'
          refine ⟨hrec.1, ?_⟩
          intro p hp
          rcases List.mem_cons.mp hp with rfl | hp
          · exact searchLoopInv_inv hs'
          · exact hrec.2 p hp
        · split
          · -- within tolerance: best_dpi = dpi_guess, loop breaks
            rename_i pdf_data _ _ _
            have hinv : searchStateInv { s with
                best_dpi := (s.dpi_low + s.dpi_high) / 2,
                best_pdf_data := some pdf_data } :=
              ⟨h30, hlh, h300,
                show s.dpi_low ≤ (s.dpi_low + s.dpi_high) / 2 by linarith,
                show (s.dpi_low + s.dpi_high) / 2 ≤ s.dpi_high by linarith⟩
            refine ⟨hinv, ?_⟩
            intro p hp
            rcases List.mem_cons.mp hp with rfl | hp
            · exact hinv
            · simp at hp
          · split
            · -- oversized: dpi_high = dpi_guess
              have hs' : searchLoopInv { s with dpi_high := (s.dpi_low + s.dpi_high) / 2 } :=
                ⟨h30, show s.dpi_low ≤ (s.dpi_low + s.dpi_high) / 2 by linarith,
                  show (s.dpi_low + s.dpi_high) / 2 ≤ 300 by linarith, hbl⟩
              have hrec := ih _ hs'
              refine ⟨hrec.1, ?_⟩
              intro p hp
              rcases List.mem_cons.mp hp with rfl | hp
              · exact searchLoopInv_inv hs'
              · exact hrec.2 p hp
            · -- undershoot: dpi_low = best_dpi = dpi_guess
              rename_i pdf_data _ _ _ _
              have hs' : searchLoopInv { s with
                  dpi_low := (s.dpi_low + s.dpi_high) / 2,
                  best_dpi := (s.dpi_low + s.dpi_high) / 2,
                  best_pdf_data := some pdf_data } :=
                ⟨show (30 : ℚ) ≤ (s.dpi_low + s.dpi_high) / 2 by linarith,
                  show (s.dpi_low + s.dpi_high) / 2 ≤ s.dpi_high by linarith,
                  h300, rfl⟩
              have hrec := ih _ hs'
              refine ⟨hrec.1, ?_⟩
              intro p hp
              rcases List.mem_cons.mp hp with rfl | hp
              · exact searchLoopInv_inv hs'
              · exact hrec.2 p hp

/-- `|size_mb - target| / target <= tolerance`, the acceptance test of both
searches (core.py:151, core.py:224). -/
def withinTolerance (target tol size : ℚ) : Prop :=
  pyAbs (size - target) / target ≤ tol

instance (target tol size : ℚ) : Decidable (withinTolerance target tol size) := by
  unfold withinTolerance
  exact inferInstance

/-- Complete characterization of the best-so-far convention of
`_find_optimal_dpi`: the run either stops at a within-tolerance trial
(recorded as best), or — when no trial is within tolerance — the best is
unchanged and every produced artifact was oversized, or the best is the
largest tried DPI whose artifact did not exceed the target. -/
theorem findOptimalDpiGo_best_char (gen : ℚ → Option (List ℕ)) (target tol : ℚ) :
    ∀ n s s' tr, findOptimalDpiGo gen target tol n s = (s', tr) →
      (∃ d bs, (d, some bs) ∈ tr.map Prod.fst ∧
        withinTolerance target tol (sizeMB bs) ∧
        s'.best_dpi = d ∧ s'.best_pdf_data = some bs) ∨
      ((∀ d bs, (d, some bs) ∈ tr.map Prod.fst →
          ¬ withinTolerance target tol (sizeMB bs)) ∧
       ((s'.best_dpi = s.best_dpi ∧ s'.best_pdf_data = s.best_pdf_data ∧
          ∀ d bs, (d, some bs) ∈ tr.map Prod.fst → target < sizeMB bs) ∨
        (∃ bs, s'.best_pdf_data = some bs ∧
          (s'.best_dpi, some bs) ∈ tr.map Prod.fst ∧ sizeMB bs ≤ target ∧
          ∀ d bs2, (d, some bs2) ∈ tr.map Prod.fst → sizeMB bs2 ≤ target →
            d ≤ s'.best_dpi))) := by
  intro n
  induction n with
  | zero =>
    intro s s' tr heq
    rw [findOptimalDpiGo] at heq
    injection heq with h1 h2
    subst h1; subst h2
    exact Or.inr ⟨by simp, Or.inl ⟨rfl, rfl, by simp⟩⟩
  | succ n ih =>
    intro s s' tr heq
    rw [findOptimalDpiGo] at heq
    split at heq
    · injection heq with h1 h2
      subst h1; subst h2
      exact Or.inr ⟨by simp, Or.inl ⟨rfl, rfl, by simp⟩⟩
    · rename_i hconv
      rw [not_lt] at hconv
      split at heq
      · -- generation failed
        injection heq with h1 h2
        subst h1; subst h2
        rcases ih _ _ _ rfl with ⟨d, bs, hmem, hwt, hbd, hbp⟩ | ⟨hnowt, hrest⟩
        · exact Or.inl ⟨d, bs, by
            simp only [List.map_cons, List.mem_cons]; exact Or.inr hmem, hwt, hbd, hbp⟩
        · refine Or.inr ⟨?_, ?_⟩
          · intro d bs hmem
            simp only [List.map_cons, List.mem_cons, Prod.mk.injEq] at hmem
            rcases hmem with ⟨_, hfalse⟩ | hmem
            · exact absurd hfalse (by simp)
            · exact hnowt d bs hmem
          · rcases hrest with ⟨hbd, hbp, hover⟩ | ⟨bs, hbp, hmem, hle, hmax⟩
            · refine Or.inl ⟨hbd, hbp, ?_⟩
              intro d bs hmem
              simp only [List.map_cons, List.mem_cons, Prod.mk.injEq] at hmem
              rcases hmem with ⟨_, hfalse⟩ | hmem
              · exact absurd hfalse (by simp)
              · exact hover d bs hmem
            · refine Or.inr ⟨bs, hbp, by
                simp only [List.map_cons, List.mem_cons]; exact Or.inr hmem, hle, ?_⟩
              intro d bs2 hmem2 hle2
              simp only [List.map_cons, List.mem_cons, Prod.mk.injEq] at hmem2
              rcases hmem2 with ⟨_, hfalse⟩ | hmem2
              · exact absurd hfalse (by simp)
              · exact hmax d bs2 hmem2 hle2
      · rename_i pdf_data hgen
        split at heq
        · -- empty pdf bytes: recorded as a failed trial
          injection heq with h1 h2
          subst h1; subst h2
          rcases ih _ _ _ rfl with ⟨d, bs, hmem, hwt, hbd, hbp⟩ | ⟨hnowt, hrest⟩
          · exact Or.inl ⟨d, bs, by
              simp only [List.map_cons, List.mem_cons]; exact Or.inr hmem, hwt, hbd, hbp⟩
          · refine Or.inr ⟨?_, ?_⟩
            · intro d bs hmem
              simp only [List.map_cons, List.mem_cons, Prod.mk.injEq] at hmem
              rcases hmem with ⟨_, hfalse⟩ | hmem
              · exact absurd hfalse (by simp)
              · exact hnowt d bs hmem
            · rcases hrest with ⟨hbd, hbp, hover⟩ | ⟨bs, hbp, hmem, hle, hmax⟩
              · refine Or.inl ⟨hbd, hbp, ?_⟩
                intro d bs hmem
                simp only [List.map_cons, List.mem_cons, Prod.mk.injEq] at hmem
                rcases hmem with ⟨_, hfalse⟩ | hmem
                · exact absurd hfalse (by simp)
                · exact hover d bs hmem
              · refine Or.inr ⟨bs, hbp, by
                  simp only [List.map_cons, List.mem_cons]; exact Or.inr hmem, hle, ?_⟩
                intro d bs2 hmem2 hle2
                simp only [List.map_cons, List.mem_cons, Prod.mk.injEq] at hmem2
                rcases hmem2 with ⟨_, hfalse⟩ | hmem2
                · exact absurd hfalse (by simp)
                · exact hmax d bs2 hmem2 hle2
        · split at heq
          · -- within tolerance: accepted and recorded
            rename_i htol
            injection heq with h1 h2
            subst h1; subst h2
            exact Or.inl ⟨(s.dpi_low + s.dpi_high) / 2, pdf_data,
              by simp, htol, rfl, rfl⟩
          · rename_i hnotol
            split at heq
            · -- oversized trial
              rename_i hover
              injection heq with h1 h2
              subst h1; subst h2
              rcases ih _ _ _ rfl with ⟨d, bs, hmem, hwt, hbd, hbp⟩ | ⟨hnowt, hrest⟩
              · exact Or.inl ⟨d, bs, by
                  simp only [List.map_cons, List.mem_cons]; exact Or.inr hmem, hwt, hbd, hbp⟩
              · refine Or.inr ⟨?_, ?_⟩
                · intro d bs hmem
                  simp only [List.map_cons, List.mem_cons, Prod.mk.injEq] at hmem
                  rcases hmem with ⟨_, hbs⟩ | hmem
                  · cases Option.some.inj hbs
                    exact hnotol
                  · exact hnowt d bs hmem
                · rcases hrest with ⟨hbd, hbp, hoverT⟩ | ⟨bs, hbp, hmem, hle, hmax⟩
                  · refine Or.inl ⟨hbd, hbp, ?_⟩
                    intro d bs hmem
                    simp only [List.map_cons, List.mem_cons, Prod.mk.injEq] at hmem
                    rcases hmem with ⟨_, hbs⟩ | hmem
                    · cases Option.some.inj hbs
                      exact hover
                    · exact hoverT d bs hmem
                  · refine Or.inr ⟨bs, hbp, by
                      simp only [List.map_cons, List.mem_cons]; exact Or.inr hmem, hle, ?_⟩
                    intro d bs2 hmem2 hle2
                    simp only [List.map_cons, List.mem_cons, Prod.mk.injEq] at hmem2
                    rcases hmem2 with ⟨_, hbs⟩ | hmem2
                    · cases Option.some.inj hbs
                      exact absurd hover (not_lt.mpr hle2)
                    · exact hmax d bs2 hmem2 hle2
            · -- not oversized: lower bound raised, best updated
              rename_i hnotover
              rw [not_lt] at hnotover
              injection heq with h1 h2
              subst h1; subst h2
              rcases ih _ _ _ rfl with ⟨d, bs, hmem, hwt, hbd, hbp⟩ | ⟨hnowt, hrest⟩
              · exact Or.inl ⟨d, bs, by
                  simp only [List.map_cons, List.mem_cons]; exact Or.inr hmem, hwt, hbd, hbp⟩
              · refine Or.inr ⟨?_, ?_⟩
                · intro d bs hmem
                  simp only [List.map_cons, List.mem_cons, Prod.mk.injEq] at hmem
                  rcases hmem with ⟨_, hbs⟩ | hmem
                  · cases Option.some.inj hbs
                    exact hnotol
                  · exact hnowt d bs hmem
                · rcases hrest with ⟨hbd, hbp, hoverT⟩ | ⟨bs, hbp, hmem, hle, hmax⟩
                  · -- recursion left best untouched: it is this trial
                    refine Or.inr ⟨pdf_data, hbp, ?_, hnotover, ?_⟩
                    · rw [hbd]
                      simp
                    · intro d bs2 hmem2 hle2
                      simp only [List.map_cons, List.mem_cons, Prod.mk.injEq] at hmem2
                      rcases hmem2 with ⟨hd, _⟩ | hmem2
                      · rw [hd, hbd]
                      · exact absurd (hoverT d bs2 hmem2) (not_lt.mpr hle2)
                  · -- recursion updated best to a later (larger) trial
                    refine Or.inr ⟨bs, hbp, by
                      simp only [List.map_cons, List.mem_cons]; exact Or.inr hmem, hle, ?_⟩
                    intro d bs2 hmem2 hle2
                    simp only [List.map_cons, List.mem_cons, Prod.mk.injEq] at hmem2
                    rcases hmem2 with ⟨hd, _⟩ | hmem2
                    · have hlb := findOptimalDpiGo_trials_lb gen target tol n _ _ _ hmem
                      simp only at hlb
                      rw [hd]
                      linarith
                    · exact hmax d bs2 hmem2 hle2

theorem le_pyAbs (x : ℚ) : x ≤ pyAbs x := by
  unfold pyAbs; split <;> linarith

theorem withinTolerance_le {target tol size : ℚ} (ht : 0 < target)
    (hwt : withinTolerance target tol size) : size ≤ target * (1 + tol) := by
  unfold withinTolerance at hwt
  have h1 : (size - target) / target ≤ tol :=
    le_trans ((div_le_div_iff_of_pos_right ht).mpr (le_pyAbs _)) hwt
  have h2 : size - target ≤ tol * target := (div_le_iff₀ ht).mp h1
  have h3 : target * (1 + tol) = target + tol * target := by ring
  linarith

theorem findOptimalDpiGo_best_le (gen : ℚ → Option (List ℕ)) (target tol : ℚ)
    (htarget : 0 < target) (htol : 0 ≤ tol) :
    ∀ n s, (∀ bs, s.best_pdf_data = some bs → sizeMB bs ≤ target * (1 + tol)) →
      ∀ bs, (findOptimalDpiGo gen target tol n s).1.best_pdf_data = some bs →
        sizeMB bs ≤ target * (1 + tol) := by
  intro n
  induction n with
  | zero =>
    intro s hpre bs hbs
    rw [findOptimalDpiGo] at hbs
    exact hpre bs hbs
  | succ n ih =>
    intro s hpre bs hbs
    rw [findOptimalDpiGo] at hbs
    split at hbs
    · exact hpre bs hbs
    · split at hbs
      · have hbs' : (findOptimalDpiGo gen target tol n
            { s with dpi_high := (s.dpi_low + s.dpi_high) / 2 }).1.best_pdf_data =
              some bs := hbs
        exact ih { s with dpi_high := (s.dpi_low + s.dpi_high) / 2 } hpre bs hbs'
      · split at hbs
        · have hbs' : (findOptimalDpiGo gen target tol n
              { s with dpi_high := (s.dpi_low + s.dpi_high) / 2 }).1.best_pdf_data =
                some bs := hbs
          exact ih { s with dpi_high := (s.dpi_low + s.dpi_high) / 2 } hpre bs hbs'
        · split at hbs
          · rename_i pdf_data _ _ htolc
            cases Option.some.inj hbs
            exact withinTolerance_le htarget htolc
          · split at hbs
            · have hbs' : (findOptimalDpiGo gen target tol n
                  { s with dpi_high := (s.dpi_low + s.dpi_high) / 2 }).1.best_pdf_data =
                    some bs := hbs
              exact ih { s with dpi_high := (s.dpi_low + s.dpi_high) / 2 } hpre bs hbs'
            · rename_i pdf_data _ _ _ hnotover
              rw [not_lt] at hnotover
              have hbs' : (findOptimalDpiGo gen target tol n
                  { s with
                    dpi_low := (s.dpi_low + s.dpi_high) / 2,
                    best_dpi := (s.dpi_low + s.dpi_high) / 2,
                    best_pdf_data := some pdf_data }).1.best_pdf_data =
                    some bs := hbs
              refine ih { s with
                  dpi_low := (s.dpi_low + s.dpi_high) / 2,
                  best_dpi := (s.dpi_low + s.dpi_high) / 2,
                  best_pdf_data := some pdf_data } ?_ bs hbs'
              intro bs2 hbs2
              cases Option.some.inj hbs2
              have : target * tol ≥ 0 := mul_nonneg htarget.le htol
              have h3 : target * (1 + tol) = target + target * tol := by ring
              linarith

/-! ## Workspace lemmas -/

theorem FS.mem_alloc {fs : FS} {c : List ℕ} {x : ℕ × List ℕ} :
    x ∈ ((fs.alloc c).2).files ↔ x ∈ fs.files ∨ x = (fs.next, c) := by
  simp [FS.alloc]

theorem FS.mem_write_of_ne {fs : FS} {f : ℕ} {c : List ℕ} {x : ℕ × List ℕ}
    (hx : x ∈ fs.files) (hne : x.1 ≠ f) : x ∈ (fs.write f c).files := by
  unfold FS.write
  simp only [List.mem_map]
  exact ⟨x, hx, by simp [hne]⟩

theorem FS.mem_unlink_of_ne {fs : FS} {f : ℕ} {x : ℕ × List ℕ}
    (hx : x ∈ fs.files) (hne : x.1 ≠ f) : x ∈ (fs.unlink f).files := by
  unfold FS.unlink
  simp only [List.mem_filter]
  exact ⟨hx, by simp [hne]⟩

/-- Any file surviving `unlink` was already present. -/
theorem FS.mem_of_mem_unlink {fs : FS} {f : ℕ} {x : ℕ × List ℕ}
    (hx : x ∈ (fs.unlink f).files) : x ∈ fs.files := by
  unfold FS.unlink at hx
  exact (List.mem_filter.mp hx).1

/-- Identifier bound: every existing file was allocated before `next`. -/
def FS.bounded (fs : FS) : Prop := ∀ x ∈ fs.files, x.1 < fs.next

theorem FS.bounded_alloc {fs : FS} (hb : fs.bounded) (c : List ℕ) :
    ((fs.alloc c).2).bounded := by
  intro x hx
  rcases FS.mem_alloc.mp hx with hx | rfl
  · exact lt_trans (hb x hx) (by simp [FS.alloc])
  · simp [FS.alloc]

theorem FS.bounded_write {fs : FS} (hb : fs.bounded) (f : ℕ) (c : List ℕ)
    (hf : f < fs.next) : (fs.write f c).bounded := by
  intro x hx
  unfold FS.write at hx
  simp only [List.mem_map] at hx
  obtain ⟨y, hy, hxy⟩ := hx
  show x.1 < fs.next
  by_cases hyf : y.1 = f
  · rw [if_pos (by simp [hyf])] at hxy
    rw [← hxy]
    exact hf
  · rw [if_neg (by simp [hyf])] at hxy
    rw [← hxy]
    exact hb y hy

theorem FS.bounded_unlink {fs : FS} (hb : fs.bounded) (f : ℕ) :
    (fs.unlink f).bounded := by
  intro x hx
  exact hb x (FS.mem_of_mem_unlink hx)

theorem unlinkBest_mem {s : PState} {fs : FS} {x : ℕ × List ℕ}
    (hx : x ∈ fs.files) (hne : ∀ b, s.best_pptx_path = some b → x.1 ≠ b) :
    x ∈ (unlinkBest s fs).files := by
  unfold unlinkBest
  cases hb : s.best_pptx_path with
  | none => exact hx
  | some b =>
    show x ∈ (if fs.pathExists b = true then fs.unlink b else fs).files
    split
    · exact FS.mem_unlink_of_ne hx (hne b hb)
    · exact hx

theorem unlinkBest_subset {s : PState} {fs : FS} {x : ℕ × List ℕ}
    (hx : x ∈ (unlinkBest s fs).files) : x ∈ fs.files := by
  unfold unlinkBest at hx
  split at hx
  · exact hx
  · split at hx
    · exact FS.mem_of_mem_unlink hx
    · exact hx

theorem unlinkBest_bounded {s : PState} {fs : FS} (hb : fs.bounded) :
    (unlinkBest s fs).bounded := by
  intro x hx
  have hnext : (unlinkBest s fs).next = fs.next := by
    unfold unlinkBest
    split
    · rfl
    · split <;> rfl
  rw [hnext]
  exact hb x (unlinkBest_subset hx)

/-- The files present after one trial's two allocations and the write of the
converted PPTX: the old files, the trial PDF, and the trial PPTX. -/
theorem FS.trial_files (fs : FS) (hb : fs.bounded) (pdf pptx : List ℕ) :
    ((((fs.alloc pdf).2).alloc []).2.write (((fs.alloc pdf).2).alloc []).1 pptx).files =
      fs.files ++ [(fs.next, pdf), (fs.next + 1, pptx)] := by
  unfold FS.alloc FS.write
  simp only [List.map_append, List.append_assoc, List.map_cons, List.map_nil]
  have h1 : fs.files.map
      (fun p => if p.1 == fs.next + 1 then (fs.next + 1, pptx) else p) = fs.files := by
    have : ∀ p ∈ fs.files,
        (if p.1 == fs.next + 1 then (fs.next + 1, pptx) else p) = p := by
      intro p hp
      rw [if_neg]
      simp only [beq_iff_eq]
      exact Nat.ne_of_lt (lt_trans (hb p hp) (Nat.lt_succ_self _))
    rw [List.map_congr_left this]
    simp
  rw [h1]
  simp

theorem FS.trial_getsize (fs : FS) (hb : fs.bounded) (pdf pptx : List ℕ) :
    ((((fs.alloc pdf).2).alloc []).2.write (((fs.alloc pdf).2).alloc []).1 pptx).getsize
      ((((fs.alloc pdf).2).alloc []).1) = pptx.length := by
  unfold FS.getsize
  rw [FS.trial_files fs hb pdf pptx,
    show ((((fs.alloc pdf).2).alloc []).1) = fs.next + 1 from rfl]
  have hfind : fs.files.find? (fun p => p.1 == fs.next + 1) = none := by
    rw [List.find?_eq_none]
    intro x hx
    simp only [beq_iff_eq]
    exact Nat.ne_of_lt (lt_trans (hb x hx) (Nat.lt_succ_self _))
  simp [hfind]

theorem FS.trial_pathExists (fs : FS) (hb : fs.bounded) (pdf pptx : List ℕ) :
    ((((fs.alloc pdf).2).alloc []).2.write (((fs.alloc pdf).2).alloc []).1 pptx).pathExists
      ((((fs.alloc pdf).2).alloc []).1) = true := by
  unfold FS.pathExists
  rw [FS.trial_files fs hb pdf pptx,
    show ((((fs.alloc pdf).2).alloc []).1) = fs.next + 1 from rfl]
  simp

/-- The spec's invariant for the PPTX-target search state. -/
def pStateInv (s : PState) : Prop :=
  30 ≤ s.dpi_low ∧ s.dpi_low ≤ s.dpi_high ∧ s.dpi_high ≤ 300 ∧
    s.dpi_low ≤ s.best_dpi ∧ s.best_dpi ≤ s.dpi_high

/-- While the PPTX-target loop runs, `best_dpi` equals `dpi_low`. -/
def pLoopInv (s : PState) : Prop :=
  30 ≤ s.dpi_low ∧ s.dpi_low ≤ s.dpi_high ∧ s.dpi_high ≤ 300 ∧
    s.best_dpi = s.dpi_low

theorem pLoopInv_inv {s : PState} (hs : pLoopInv s) : pStateInv s :=
  ⟨hs.1, hs.2.1, hs.2.2.1, le_of_eq hs.2.2.2.symm, hs.2.2.2 ▸ hs.2.1⟩

theorem pStep_inv {gen : ℚ → Option (List ℕ)}
    {convert : ℤ → List ℕ → Except Unit (List ℕ)} {target tol : ℚ} {n : ℕ}
    (ihn : ∀ s fs, pLoopInv s →
      (∀ p ∈ (findOptimalDpiForPptxGo gen convert target tol n s fs).posts, pStateInv p) ∧
      (∀ s', (findOptimalDpiForPptxGo gen convert target tol n s fs).state = some s' →
        pStateInv s'))
    {s₁ : PState} {fs₁ : FS} (hs₁ : pLoopInv s₁) :
    (∀ p ∈ s₁ :: (findOptimalDpiForPptxGo gen convert target tol n s₁ fs₁).posts,
      pStateInv p) ∧
    (∀ s', (findOptimalDpiForPptxGo gen convert target tol n s₁ fs₁).state = some s' →
      pStateInv s') := by
  have hrec := ihn s₁ fs₁ hs₁
  refine ⟨?_, hrec.2⟩
  intro p hp
  rcases List.mem_cons.mp hp with rfl | hp
  · exact pLoopInv_inv hs₁
  · exact hrec.1 p hp

theorem findOptimalDpiForPptxGo_inv (gen : ℚ → Option (List ℕ))
    (convert : ℤ → List ℕ → Except Unit (List ℕ)) (target tol : ℚ) :
    ∀ n s fs, pLoopInv s →
      (∀ p ∈ (findOptimalDpiForPptxGo gen convert target tol n s fs).posts, pStateInv p) ∧
      (∀ s', (findOptimalDpiForPptxGo gen convert target tol n s fs).state = some s' →
        pStateInv s') := by
  intro n
  induction n with
  | zero =>
    intro s fs hs
    rw [findOptimalDpiForPptxGo]
    exact ⟨by simp, fun s' h => by cases h; exact pLoopInv_inv hs⟩
  | succ n ih =>
    intro s fs hs
    obtain ⟨h30, hlh, h300, hbl⟩ := hs
    rw [findOptimalDpiForPptxGo]
    split
    · exact ⟨by simp, fun s' h => by cases h; exact pLoopInv_inv ⟨h30, hlh, h300, hbl⟩⟩
    · rename_i hconv
      rw [not_lt] at hconv
      dsimp only
      split
      · -- generation failed
        exact pStep_inv ih ⟨h30,
          show s.dpi_low ≤ (s.dpi_low + s.dpi_high) / 2 by linarith,
          show (s.dpi_low + s.dpi_high) / 2 ≤ 300 by linarith, hbl⟩
      · split
        · -- empty pdf bytes
          exact pStep_inv ih ⟨h30,
            show s.dpi_low ≤ (s.dpi_low + s.dpi_high) / 2 by linarith,
            show (s.dpi_low + s.dpi_high) / 2 ≤ 300 by linarith, hbl⟩
        · split
          · -- convert_to_ppt raised: loop aborts
            exact ⟨by simp, fun s' h => by cases h⟩
          · split
            · split
              · -- within tolerance: break with the trial as best
                constructor
                · intro p hp
                  rcases List.mem_cons.mp hp with rfl | hp
                  · exact ⟨h30, hlh, h300,
                      show s.dpi_low ≤ (s.dpi_low + s.dpi_high) / 2 by linarith,
                      show (s.dpi_low + s.dpi_high) / 2 ≤ s.dpi_high by linarith⟩
                  · simp at hp
                · intro s' h
                  injection h with h
                  subst h
                  exact ⟨h30, hlh, h300,
                    show s.dpi_low ≤ (s.dpi_low + s.dpi_high) / 2 by linarith,
                    show (s.dpi_low + s.dpi_high) / 2 ≤ s.dpi_high by linarith⟩
              · split
                · -- oversized
                  exact pStep_inv ih ⟨h30,
                    show s.dpi_low ≤ (s.dpi_low + s.dpi_high) / 2 by linarith,
                    show (s.dpi_low + s.dpi_high) / 2 ≤ 300 by linarith, hbl⟩
                · -- undershoot: lower bound and best move together
                  exact pStep_inv ih
                    ⟨show (30 : ℚ) ≤ (s.dpi_low + s.dpi_high) / 2 by linarith,
                      show (s.dpi_low + s.dpi_high) / 2 ≤ s.dpi_high by linarith,
                      h300, rfl⟩
            · -- PPTX missing after conversion
              exact pStep_inv ih ⟨h30,
                show s.dpi_low ≤ (s.dpi_low + s.dpi_high) / 2 by linarith,
                show (s.dpi_low + s.dpi_high) / 2 ≤ 300 by linarith, hbl⟩

/-- Workspace invariant tying the retained best PPTX to its on-disk
contents: identifiers are bounded by the allocation counter, and the best
scratch file (when any) exists with size at most `target * (1 + tol)`. -/
def pBestInv (target tol : ℚ) (s : PState) (fs : FS) : Prop :=
  fs.bounded ∧
  ∀ b, s.best_pptx_path = some b →
    ∃ c, (b, c) ∈ fs.files ∧ sizeMB c ≤ target * (1 + tol)

theorem trial_bounded {fs : FS} (hb : fs.bounded) (pdf pptx : List ℕ) :
    ((((fs.alloc pdf).2).alloc []).2.write (((fs.alloc pdf).2).alloc []).1 pptx).bounded := by
  apply FS.bounded_write (FS.bounded_alloc (FS.bounded_alloc hb pdf) [])
  show fs.next + 1 < fs.next + 1 + 1
  exact Nat.lt_succ_self _

theorem pg_eq_of_state {gen : ℚ → Option (List ℕ)}
    {convert : ℤ → List ℕ → Except Unit (List ℕ)} {target tol : ℚ} {n : ℕ}
    {s : PState} {fs : FS} {s' : PState}
    (h : (findOptimalDpiForPptxGo gen convert target tol n s fs).state = some s') :
    findOptimalDpiForPptxGo gen convert target tol n s fs =
      { state := some s',
        fs := (findOptimalDpiForPptxGo gen convert target tol n s fs).fs,
        posts := (findOptimalDpiForPptxGo gen convert target tol n s fs).posts } := by
  rw [← h]

theorem findOptimalDpiForPptxGo_best_le (gen : ℚ → Option (List ℕ))
    (convert : ℤ → List ℕ → Except Unit (List ℕ)) (target tol : ℚ)
    (ht : 0 < target) (htol : 0 ≤ tol) :
    ∀ n s fs, pBestInv target tol s fs →
      ∀ s' fsOut posts,
        findOptimalDpiForPptxGo gen convert target tol n s fs =
          { state := some s', fs := fsOut, posts := posts } →
        pBestInv target tol s' fsOut := by
  intro n
  induction n with
  | zero =>
    intro s fs hpre s' fsOut posts heq
    rw [findOptimalDpiForPptxGo] at heq
    injection heq with h1 h2 h3
    injection h1 with h1
    subst h1; subst h2
    exact hpre
  | succ n ih =>
    intro s fs hpre s' fsOut posts heq
    rw [findOptimalDpiForPptxGo] at heq
    split at heq
    · injection heq with h1 h2 h3
      injection h1 with h1
      subst h1; subst h2
      exact hpre
    · split at heq
      · -- generation failed: recurse on the same workspace
        injection heq with h1 h2 h3
        subst h2
        exact ih { s with dpi_high := (s.dpi_low + s.dpi_high) / 2 } fs hpre s' _ _
          (pg_eq_of_state h1)
      · rename_i pdf_data hgen
        split at heq
        · -- empty pdf bytes
          injection heq with h1 h2 h3
          subst h2
          exact ih { s with dpi_high := (s.dpi_low + s.dpi_high) / 2 } fs hpre s' _ _
            (pg_eq_of_state h1)
        · rename_i hemp
          split at heq
          · -- convert_to_ppt raised
            injection heq with h1 h2 h3
            cases h1
          · rename_i pptx_data hok
            dsimp only at heq
            split at heq
            · rename_i hex
              split at heq
              · -- within tolerance: retained best is this trial
                rename_i htolc
                injection heq with h1 h2 h3
                injection h1 with h1
                subst h1; subst h2
                refine ⟨FS.bounded_unlink (unlinkBest_bounded (trial_bounded hpre.1 _ _)) _, ?_⟩
                intro b hb
                injection hb with hb
                subst hb
                refine ⟨pptx_data, ?_, ?_⟩
                · apply FS.mem_unlink_of_ne
                  · apply unlinkBest_mem
                    · rw [FS.trial_files fs hpre.1 pdf_data pptx_data]
                      simp
                      exact Or.inr (Or.inr rfl)
                    · intro b0 hb0
                      obtain ⟨c0, hc0, _⟩ := hpre.2 b0 hb0
                      have := hpre.1 _ hc0
                      show fs.next + 1 ≠ b0
                      omega
                  · show fs.next + 1 ≠ fs.next
                    omega
                · have hsz := FS.trial_getsize fs hpre.1 pdf_data pptx_data
                  rw [hsz] at htolc
                  exact withinTolerance_le ht htolc
              · rename_i hntol
                split at heq
                · -- oversized: trial deleted, best carried over
                  injection heq with h1 h2 h3
                  subst h2
                  refine ih { s with dpi_high := (s.dpi_low + s.dpi_high) / 2 } _
                    ⟨?_, ?_⟩ s' _ _ (pg_eq_of_state h1)
                  · exact FS.bounded_unlink
                      (FS.bounded_unlink (trial_bounded hpre.1 _ _) _) _
                  · intro b hb
                    obtain ⟨c, hc, hcle⟩ := hpre.2 b hb
                    have hblt := hpre.1 _ hc
                    refine ⟨c, ?_, hcle⟩
                    apply FS.mem_unlink_of_ne
                    · apply FS.mem_unlink_of_ne
                      · rw [FS.trial_files fs hpre.1 pdf_data pptx_data]
                        exact List.mem_append_left _ hc
                      · show b ≠ fs.next + 1
                        omega
                    · show b ≠ fs.next
                      omega
                · -- undershoot: best replaced by this trial
                  rename_i hnover
                  rw [not_lt] at hnover
                  injection heq with h1 h2 h3
                  subst h2
                  refine ih { s with
                      dpi_low := (s.dpi_low + s.dpi_high) / 2,
                      best_dpi := (s.dpi_low + s.dpi_high) / 2,
                      best_pptx_path := some ((((fs.alloc pdf_data).2).alloc []).1) } _
                    ⟨?_, ?_⟩ s' _ _ (pg_eq_of_state h1)
                  · exact FS.bounded_unlink (unlinkBest_bounded (trial_bounded hpre.1 _ _)) _
                  · intro b hb
                    injection hb with hb
                    subst hb
                    refine ⟨pptx_data, ?_, ?_⟩
                    · apply FS.mem_unlink_of_ne
                      · apply unlinkBest_mem
                        · rw [FS.trial_files fs hpre.1 pdf_data pptx_data]
                          simp
                          exact Or.inr (Or.inr rfl)
                        · intro b0 hb0
                          obtain ⟨c0, hc0, _⟩ := hpre.2 b0 hb0
                          have := hpre.1 _ hc0
                          show fs.next + 1 ≠ b0
                          omega
                      · show fs.next + 1 ≠ fs.next
                        omega
                    · have hsz := FS.trial_getsize fs hpre.1 pdf_data pptx_data
                      rw [hsz] at hnover
                      have hq : target * tol ≥ 0 := mul_nonneg ht.le htol
                      have h4 : target * (1 + tol) = target + target * tol := by ring
                      show sizeMB pptx_data ≤ target * (1 + tol)
                      unfold sizeMB
                      linarith
            · -- PPTX missing after conversion: trial file stays, best carried over
              injection heq with h1 h2 h3
              subst h2
              refine ih { s with dpi_high := (s.dpi_low + s.dpi_high) / 2 } _
                ⟨?_, ?_⟩ s' _ _ (pg_eq_of_state h1)
              · exact FS.bounded_unlink (trial_bounded hpre.1 _ _) _
              · intro b hb
                obtain ⟨c, hc, hcle⟩ := hpre.2 b hb
                have hblt := hpre.1 _ hc
                refine ⟨c, ?_, hcle⟩
                apply FS.mem_unlink_of_ne
                · rw [FS.trial_files fs hpre.1 pdf_data pptx_data]
                  exact List.mem_append_left _ hc
                · show b ≠ fs.next
                  omega

/-! ## Claim theorems -/

/-- **C2.** For every document oracle and every target size, the DPI search
loop executes at most 7 iterations, additionally terminating early as soon
as `dpi_guess = (dpi_low + dpi_high) / 2` satisfies
`dpi_guess < dpi_low + 1` (that iteration performs no trial and the loop
exits at once); it never loops forever (the run is a total function of its
inputs), and the DPI it returns always lies in `[30, 300]`. -/
theorem c2_search_terminates_within_bounds (gen : ℚ → Option (List ℕ))
    (target tol : ℚ) :
    (findOptimalDpiRun gen target tol).2.length ≤ ITERATIONS ∧
    (∀ n s, (s.dpi_low + s.dpi_high) / 2 < s.dpi_low + 1 →
      findOptimalDpiGo gen target tol (n + 1) s = (s, [])) ∧
    30 ≤ (findOptimalDpi gen target tol).1 ∧
    (findOptimalDpi gen target tol).1 ≤ 300 := by
  have hinv := findOptimalDpiGo_inv gen target tol ITERATIONS initialSearchState
    ⟨by norm_num [initialSearchState], by norm_num [initialSearchState],
      by norm_num [initialSearchState], rfl⟩
  obtain ⟨h30, hlh, h300, hlb, hbh⟩ := hinv.1
  refine ⟨findOptimalDpiGo_length_le gen target tol _ _, ?_, ?_, ?_⟩
  · intro n s h
    rw [findOptimalDpiGo, if_pos h]
  · show (30 : ℚ) ≤ (findOptimalDpiGo gen target tol ITERATIONS initialSearchState).1.best_dpi
    linarith
  · show (findOptimalDpiGo gen target tol ITERATIONS initialSearchState).1.best_dpi ≤ 300
    linarith

/-- Witness for C2 at a concrete input: a state whose midpoint has converged
to integer resolution makes the loop exit immediately with no trial. -/
theorem c2_search_terminates_within_bounds_witness :
    findOptimalDpiGo (fun _ => none) 1 0 1
      { dpi_low := 30, dpi_high := 30, best_dpi := 30, best_pdf_data := none } =
      ({ dpi_low := 30, dpi_high := 30, best_dpi := 30, best_pdf_data := none }, []) :=
  (c2_search_terminates_within_bounds (fun _ => none) 1 0).2.1 0
    { dpi_low := 30, dpi_high := 30, best_dpi := 30, best_pdf_data := none }
    (by norm_num)

/-- **C3.** Throughout every DPI search — both the plain PDF variant and the
PPTX-target variant — after every bisection step the search state satisfies
`dpi_low ≤ dpi_high`, both bounds remain within `[30, 300]`, and
`dpi_low ≤ best_dpi ≤ dpi_high` (and the same holds for the state the search
finally returns). -/
theorem c3_search_state_invariant (gen gen2 : ℚ → Option (List ℕ))
    (convert : ℤ → List ℕ → Except Unit (List ℕ)) (target tol target2 tol2 : ℚ)
    (fs : FS) :
    (∀ p ∈ (findOptimalDpiRun gen target tol).2, searchStateInv p.2) ∧
    searchStateInv (findOptimalDpiRun gen target tol).1 ∧
    (∀ p ∈ (findOptimalDpiForPptx gen2 convert target2 tol2 fs).posts, pStateInv p) ∧
    (∀ s', (findOptimalDpiForPptx gen2 convert target2 tol2 fs).state = some s' →
      pStateInv s') := by
  have h1 := findOptimalDpiGo_inv gen target tol ITERATIONS initialSearchState
    ⟨by norm_num [initialSearchState], by norm_num [initialSearchState],
      by norm_num [initialSearchState], rfl⟩
  have h2 := findOptimalDpiForPptxGo_inv gen2 convert target2 tol2 ITERATIONS
    initialPState fs
    ⟨by norm_num [initialPState], by norm_num [initialPState],
      by norm_num [initialPState], rfl⟩
  exact ⟨h1.2, h1.1, h2.1, h2.2⟩

/-- Witness for C3 at concrete inputs: the state after the first bisection
step of a run in which every trial fails satisfies the invariant. -/
theorem c3_search_state_invariant_witness :
    searchStateInv ⟨30, (30 + 300) / 2, 30, none⟩ ∧
    pStateInv ⟨30, (30 + 300) / 2, 30, none⟩ := by
  constructor
  · refine (c3_search_state_invariant (fun _ => none) (fun _ => none)
      (fun _ _ => Except.error ()) 1 0 1 0 FS.empty).1
      (((30 + 300) / 2, none), ⟨30, (30 + 300) / 2, 30, none⟩) ?_
    norm_num [findOptimalDpiRun, findOptimalDpiGo, ITERATIONS, initialSearchState]
  · refine (c3_search_state_invariant (fun _ => none) (fun _ => none)
      (fun _ _ => Except.error ()) 1 0 1 0 FS.empty).2.2.1
      ⟨30, (30 + 300) / 2, 30, none⟩ ?_
    norm_num [findOptimalDpiForPptx, findOptimalDpiForPptxGo, ITERATIONS, initialPState]

/-- **C1, counterexample to the frozen claim.**  With every trial producing
a 51-byte artifact and `target = 50` bytes (`50/1048576` MB) at tolerance
`1/20`, the very first trial is within tolerance (relative error `1/50`) yet
oversized, and the search records it as best and stops: the final best is a
tried DPI whose artifact *exceeds* the target — contradicting the claim that
the final best is the largest tried DPI whose artifact did not exceed the
target (here no tried DPI at all has an artifact within the target). -/
theorem c1_counterexample :
    (findOptimalDpiRun (fun _ => some (List.replicate 51 0))
        (50 / 1048576) (1 / 20)).1.best_pdf_data = some (List.replicate 51 0) ∧
    (findOptimalDpiRun (fun _ => some (List.replicate 51 0))
        (50 / 1048576) (1 / 20)).1.best_dpi = 165 ∧
    (findOptimalDpiRun (fun _ => some (List.replicate 51 0))
        (50 / 1048576) (1 / 20)).2.map Prod.fst =
      [(165, some (List.replicate 51 0))] ∧
    (50 / 1048576 : ℚ) < sizeMB (List.replicate 51 0) := by
  norm_num [findOptimalDpiRun, findOptimalDpiGo, ITERATIONS, initialSearchState,
    sizeMB, mbOfBytes, pyAbs]

/-- **C1 (amended).** For every bisection iteration in which an artifact was
produced: if `|size_mb - target| / target ≤ tolerance` the search records
that trial as best and stops immediately; otherwise if `size_mb > target`
the upper bound is set to `dpi_guess`, and if `size_mb ≤ target` the lower
bound is set to `dpi_guess` and the best-so-far DPI and artifact payload are
both updated to this trial's values.  Consequently the final best is either
a within-tolerance trial (recorded even when its artifact exceeds the
target, by up to the tolerance fraction), or — when no trial was within
tolerance — the largest tried DPI whose artifact did not exceed the target,
the best staying at the initial DPI 30 with no payload when every produced
artifact was oversized. -/
theorem c1_best_dpi_convention (gen : ℚ → Option (List ℕ)) (target tol : ℚ) :
    (∀ n s pdf_data,
      ¬ ((s.dpi_low + s.dpi_high) / 2 < s.dpi_low + 1) →
      gen ((s.dpi_low + s.dpi_high) / 2) = some pdf_data →
      pdf_data.isEmpty = false →
      ((withinTolerance target tol (sizeMB pdf_data) →
          findOptimalDpiGo gen target tol (n + 1) s =
            (⟨s.dpi_low, s.dpi_high, (s.dpi_low + s.dpi_high) / 2, some pdf_data⟩,
             [(((s.dpi_low + s.dpi_high) / 2, some pdf_data),
               ⟨s.dpi_low, s.dpi_high, (s.dpi_low + s.dpi_high) / 2, some pdf_data⟩)])) ∧
       (¬ withinTolerance target tol (sizeMB pdf_data) →
          target < sizeMB pdf_data →
          findOptimalDpiGo gen target tol (n + 1) s =
            ((findOptimalDpiGo gen target tol n
                ⟨s.dpi_low, (s.dpi_low + s.dpi_high) / 2, s.best_dpi, s.best_pdf_data⟩).1,
             (((s.dpi_low + s.dpi_high) / 2, some pdf_data),
                ⟨s.dpi_low, (s.dpi_low + s.dpi_high) / 2, s.best_dpi, s.best_pdf_data⟩) ::
              (findOptimalDpiGo gen target tol n
                ⟨s.dpi_low, (s.dpi_low + s.dpi_high) / 2, s.best_dpi, s.best_pdf_data⟩).2)) ∧
       (¬ withinTolerance target tol (sizeMB pdf_data) →
          sizeMB pdf_data ≤ target →
          findOptimalDpiGo gen target tol (n + 1) s =
            ((findOptimalDpiGo gen target tol n
                ⟨(s.dpi_low + s.dpi_high) / 2, s.dpi_high,
                  (s.dpi_low + s.dpi_high) / 2, some pdf_data⟩).1,
             (((s.dpi_low + s.dpi_high) / 2, some pdf_data),
                ⟨(s.dpi_low + s.dpi_high) / 2, s.dpi_high,
                  (s.dpi_low + s.dpi_high) / 2, some pdf_data⟩) ::
              (findOptimalDpiGo gen target tol n
                ⟨(s.dpi_low + s.dpi_high) / 2, s.dpi_high,
                  (s.dpi_low + s.dpi_high) / 2, some pdf_data⟩).2)))) ∧
    ((∃ d bs, (d, some bs) ∈ (findOptimalDpiRun gen target tol).2.map Prod.fst ∧
        withinTolerance target tol (sizeMB bs) ∧
        (findOptimalDpiRun gen target tol).1.best_dpi = d ∧
        (findOptimalDpiRun gen target tol).1.best_pdf_data = some bs) ∨
     ((∀ d bs, (d, some bs) ∈ (findOptimalDpiRun gen target tol).2.map Prod.fst →
         ¬ withinTolerance target tol (sizeMB bs)) ∧
      (((findOptimalDpiRun gen target tol).1.best_dpi = 30 ∧
         (findOptimalDpiRun gen target tol).1.best_pdf_data = none ∧
         ∀ d bs, (d, some bs) ∈ (findOptimalDpiRun gen target tol).2.map Prod.fst →
           target < sizeMB bs) ∨
       (∃ bs, (findOptimalDpiRun gen target tol).1.best_pdf_data = some bs ∧
         ((findOptimalDpiRun gen target tol).1.best_dpi, some bs) ∈
           (findOptimalDpiRun gen target tol).2.map Prod.fst ∧
         sizeMB bs ≤ target ∧
         ∀ d bs2, (d, some bs2) ∈ (findOptimalDpiRun gen target tol).2.map Prod.fst →
           sizeMB bs2 ≤ target →
           d ≤ (findOptimalDpiRun gen target tol).1.best_dpi)))) := by
  constructor
  · intro n s pdf_data hconv hgen hemp
    unfold withinTolerance
    refine ⟨?_, ?_, ?_⟩
    · intro hwt
      rw [findOptimalDpiGo, if_neg hconv, hgen]
      simp only [hemp, Bool.false_eq_true, if_false, if_pos hwt]
    · intro hnwt hover
      rw [findOptimalDpiGo, if_neg hconv, hgen]
      simp only [hemp, Bool.false_eq_true, if_false, if_neg hnwt, if_pos hover]
    · intro hnwt hle
      rw [findOptimalDpiGo, if_neg hconv, hgen]
      simp only [hemp, Bool.false_eq_true, if_false, if_neg hnwt,
        if_neg (not_lt.mpr hle)]
  · exact findOptimalDpiGo_best_char gen target tol ITERATIONS initialSearchState
      (findOptimalDpiRun gen target tol).1 (findOptimalDpiRun gen target tol).2 rfl

/-- Witness for C1 at concrete inputs: one accepted within-tolerance step,
one oversized step, one undershooting best-updating step, each matching the
equation the claim states for it. -/
theorem c1_best_dpi_convention_witness :
    (findOptimalDpiGo (fun _ => some [0, 0]) (2 / 1048576) 0 1 initialSearchState =
      (⟨30, 300, (30 + 300) / 2, some [0, 0]⟩,
       [(((30 + 300) / 2, some [0, 0]), ⟨30, 300, (30 + 300) / 2, some [0, 0]⟩)])) ∧
    (findOptimalDpiGo (fun _ => some [0, 0]) (1 / 1048576) 0 1 initialSearchState =
      ((findOptimalDpiGo (fun _ => some [0, 0]) (1 / 1048576) 0 0
          ⟨30, (30 + 300) / 2, 30, none⟩).1,
       (((30 + 300) / 2, some [0, 0]), ⟨30, (30 + 300) / 2, 30, none⟩) ::
        (findOptimalDpiGo (fun _ => some [0, 0]) (1 / 1048576) 0 0
          ⟨30, (30 + 300) / 2, 30, none⟩).2)) ∧
    (findOptimalDpiGo (fun _ => some [0, 0]) (3 / 1048576) 0 1 initialSearchState =
      ((findOptimalDpiGo (fun _ => some [0, 0]) (3 / 1048576) 0 0
          ⟨(30 + 300) / 2, 300, (30 + 300) / 2, some [0, 0]⟩).1,
       (((30 + 300) / 2, some [0, 0]),
          ⟨(30 + 300) / 2, 300, (30 + 300) / 2, some [0, 0]⟩) ::
        (findOptimalDpiGo (fun _ => some [0, 0]) (3 / 1048576) 0 0
          ⟨(30 + 300) / 2, 300, (30 + 300) / 2, some [0, 0]⟩).2)) := by
  refine ⟨?_, ?_, ?_⟩
  · exact ((c1_best_dpi_convention (fun _ => some [0, 0]) (2 / 1048576) 0).1 0
      initialSearchState [0, 0] (by norm_num [initialSearchState]) rfl rfl).1
      (by norm_num [withinTolerance, sizeMB, mbOfBytes, pyAbs])
  · exact ((c1_best_dpi_convention (fun _ => some [0, 0]) (1 / 1048576) 0).1 0
      initialSearchState [0, 0] (by norm_num [initialSearchState]) rfl rfl).2.1
      (by norm_num [withinTolerance, sizeMB, mbOfBytes, pyAbs])
      (by norm_num [sizeMB, mbOfBytes])
  · exact ((c1_best_dpi_convention (fun _ => some [0, 0]) (3 / 1048576) 0).1 0
      initialSearchState [0, 0] (by norm_num [initialSearchState]) rfl rfl).2.2
      (by norm_num [withinTolerance, sizeMB, mbOfBytes, pyAbs])
      (by norm_num [sizeMB, mbOfBytes])

/-- **C10.** Whenever either DPI search returns a non-null best artifact
payload, that payload's measured size never exceeds
`target * (1 + tolerance)`: the best is only ever set from a trial that was
within tolerance or not oversized (for the PPTX variant, the retained best
scratch file exists in the final workspace with contents of such a size). -/
theorem c10_best_never_exceeds_bound (gen : ℚ → Option (List ℕ))
    (convert : ℤ → List ℕ → Except Unit (List ℕ)) (target tol : ℚ)
    (ht : 0 < target) (htol : 0 ≤ tol) :
    (∀ bs, (findOptimalDpi gen target tol).2 = some bs →
      sizeMB bs ≤ target * (1 + tol)) ∧
    (∀ s' fsOut posts b,
      findOptimalDpiForPptx gen convert target tol FS.empty =
        { state := some s', fs := fsOut, posts := posts } →
      s'.best_pptx_path = some b →
      ∃ c, (b, c) ∈ fsOut.files ∧ sizeMB c ≤ target * (1 + tol)) := by
  constructor
  · intro bs h
    exact findOptimalDpiGo_best_le gen target tol ht htol ITERATIONS
      initialSearchState (by intro bs2 h2; cases h2) bs h
  · intro s' fsOut posts b heq hb
    exact (findOptimalDpiForPptxGo_best_le gen convert target tol ht htol ITERATIONS
      initialPState FS.empty
      ⟨by intro x hx; simp [FS.empty] at hx, by intro b2 hb2; cases hb2⟩
      s' fsOut posts heq).2 b hb

set_option maxHeartbeats 1000000 in
/-- Witness for C10 at concrete inputs where both searches accept their
first trial. -/
theorem c10_best_never_exceeds_bound_witness :
    sizeMB [0] ≤ (1 / 1048576 : ℚ) * (1 + 0) ∧
    (∃ c, ((1 : ℕ), c) ∈ [((1 : ℕ), [(0 : ℕ)])] ∧
      sizeMB c ≤ (1 / 1048576 : ℚ) * (1 + 0)) := by
  have h := c10_best_never_exceeds_bound (fun _ => some [0]) (fun _ _ => Except.ok [0])
    (1 / 1048576) 0 (by norm_num) le_rfl
  constructor
  · exact h.1 [0] (by
      norm_num [findOptimalDpi, findOptimalDpiRun, findOptimalDpiGo, ITERATIONS,
        initialSearchState, sizeMB, mbOfBytes, pyAbs])
  · exact h.2 ⟨30, 300, 165, some 1⟩ ⟨2, [(1, [0])]⟩ [⟨30, 300, 165, some 1⟩] 1 (by
      rw [findOptimalDpiForPptx, ITERATIONS, show (7 : ℕ) = 6 + 1 from rfl,
        findOptimalDpiForPptxGo]
      norm_num [initialPState, FS.empty, FS.alloc, FS.write, FS.pathExists,
        FS.getsize, FS.unlink, unlinkBest, mbOfBytes, pyAbs, pyInt]) rfl

/-- **C5.** During each trial's render pass, every page whose rendering
raises an error is skipped rather than aborting the trial, and the candidate
artifact is built over exactly the successfully rendered pages in order; if
zero pages render at a given `dpi_guess`, the trial yields no data and the
search sets `dpi_high = dpi_guess` and continues with the next iteration
instead of failing the whole operation. -/
theorem c5_render_errors_skipped (doc : List (ℤ → Option ℕ))
    (build : List ℕ → ℚ → List ℕ) (target tol : ℚ) :
    (∀ dpi, (∀ page ∈ doc, page (pyInt dpi) = none) →
      generatePdfData doc build dpi = none) ∧
    (∀ dpi, doc.filterMap (fun page => page (pyInt dpi)) ≠ [] →
      generatePdfData doc build dpi =
        some (build (doc.filterMap (fun page => page (pyInt dpi))) dpi)) ∧
    (∀ n s,
      ¬ ((s.dpi_low + s.dpi_high) / 2 < s.dpi_low + 1) →
      (∀ page ∈ doc, page (pyInt ((s.dpi_low + s.dpi_high) / 2)) = none) →
      findOptimalDpiGo (generatePdfData doc build) target tol (n + 1) s =
        ((findOptimalDpiGo (generatePdfData doc build) target tol n
            ⟨s.dpi_low, (s.dpi_low + s.dpi_high) / 2, s.best_dpi, s.best_pdf_data⟩).1,
         (((s.dpi_low + s.dpi_high) / 2, none),
            ⟨s.dpi_low, (s.dpi_low + s.dpi_high) / 2, s.best_dpi, s.best_pdf_data⟩) ::
          (findOptimalDpiGo (generatePdfData doc build) target tol n
            ⟨s.dpi_low, (s.dpi_low + s.dpi_high) / 2, s.best_dpi, s.best_pdf_data⟩).2)) := by
  have hnone : ∀ dpi, (∀ page ∈ doc, page (pyInt dpi) = none) →
      generatePdfData doc build dpi = none := by
    intro dpi h
    unfold generatePdfData
    have : doc.filterMap (fun page => page (pyInt dpi)) = [] := by
      rw [List.filterMap_eq_nil_iff]
      exact h
    rw [if_pos (by rw [this]; rfl)]
  refine ⟨hnone, ?_, ?_⟩
  · intro dpi h
    unfold generatePdfData
    rw [if_neg]
    intro hcon
    exact h (List.isEmpty_iff.mp hcon)
  · intro n s hconv h
    rw [findOptimalDpiGo, if_neg hconv, hnone _ h]

/-- Witness for C5 at concrete inputs: a one-page document whose page always
raises produces no data and makes the first bisection step shrink the upper
bound; a document with one good and one failing page builds its artifact
from the single successful render. -/
theorem c5_render_errors_skipped_witness :
    generatePdfData [fun _ => none] (fun imgs _ => imgs) 165 = none ∧
    generatePdfData [fun _ => some 5, fun _ => none] (fun imgs _ => imgs) 165 =
      some [5] ∧
    findOptimalDpiGo (generatePdfData [fun _ => none] (fun imgs _ => imgs)) 1 0 1
      initialSearchState =
      (⟨30, (30 + 300) / 2, 30, none⟩,
       [(((30 + 300) / 2, none), ⟨30, (30 + 300) / 2, 30, none⟩)]) := by
  refine ⟨?_, ?_, ?_⟩
  · exact (c5_render_errors_skipped [fun _ => none] (fun imgs _ => imgs) 1 0).1 165
      (by intro page hp; simp only [List.mem_singleton] at hp; subst hp; rfl)
  · have h := (c5_render_errors_skipped [fun _ => some 5, fun _ => none]
      (fun imgs _ => imgs) 1 0).2.1 165 (by simp)
    simpa using h
  · exact (c5_render_errors_skipped [fun _ => none] (fun imgs _ => imgs) 1 0).2.2 0
      initialSearchState (by norm_num [initialSearchState])
      (by intro page hp; simp only [List.mem_singleton] at hp; subst hp; rfl)

/-- **C4, counterexample to the frozen claim.**  The PDF→PPTX auto-compress
operation (`autocompress_pdf_to_pptx`) has no pass-through check: with a
3-byte source and a 5-byte target the source is already within the target,
yet the operation runs the DPI search (one bisection step is recorded) and
writes the converted PPTX bytes, not a copy of the source. -/
theorem c4_counterexample :
    sizeMB [0, 0, 0] ≤ (5 / 1048576 : ℚ) ∧
    (autocompressPdfToPptx [0, 0, 0] (5 / 1048576) 0 (fun _ => some [0])
        (fun _ _ => Except.ok [9, 9, 9, 9, 9])).output = some [9, 9, 9, 9, 9] ∧
    (autocompressPdfToPptx [0, 0, 0] (5 / 1048576) 0 (fun _ => some [0])
        (fun _ _ => Except.ok [9, 9, 9, 9, 9])).output ≠ some [0, 0, 0] ∧
    (autocompressPdfToPptx [0, 0, 0] (5 / 1048576) 0 (fun _ => some [0])
        (fun _ _ => Except.ok [9, 9, 9, 9, 9])).searchPosts ≠ [] := by
  have hrun : findOptimalDpiForPptx (fun _ => some [0])
      (fun _ _ => Except.ok [9, 9, 9, 9, 9]) (5 / 1048576) 0 FS.empty =
      { state := some ⟨30, 300, 165, some 1⟩, fs := ⟨2, [(1, [9, 9, 9, 9, 9])]⟩,
        posts := [⟨30, 300, 165, some 1⟩] } := by
    rw [findOptimalDpiForPptx, ITERATIONS, show (7 : ℕ) = 6 + 1 from rfl,
      findOptimalDpiForPptxGo]
    norm_num [initialPState, FS.empty, FS.alloc, FS.write, FS.pathExists,
      FS.getsize, FS.unlink, unlinkBest, mbOfBytes, pyAbs, pyInt]
  refine ⟨by norm_num [sizeMB, mbOfBytes], ?_, ?_, ?_⟩ <;>
    simp [autocompressPdfToPptx, hrun, FS.pathExists, FS.contentOf, FS.unlink]

/-- **C4 (amended).** For the PDF→PDF and PPTX→PPTX auto-compress
operations, if the source file's size is at most the target size the
operation skips the DPI search entirely and copies the source unchanged, so
the output file's bytes equal the input file's bytes; the PDF→PPTX
auto-compress operation has no such pass-through and always performs the
DPI search. -/
theorem c4_identity_copy_when_small (input : List ℕ) (target tol : ℚ)
    (pptxToPdf : Option (List ℕ)) (gen : ℚ → Option (List ℕ))
    (pdfToPptx : ℤ → List ℕ → Option (List ℕ))
    (h : sizeMB input ≤ target) :
    autocompressPdf input target tol gen = some input ∧
    autocompressPptx input target tol pptxToPdf gen pdfToPptx = some input := by
  unfold autocompressPdf autocompressPptx
  rw [if_pos h, if_pos h]
  exact ⟨rfl, rfl⟩

/-- Witness for C4 (amended) at a concrete input: a 1-byte source with a
1 MB target is copied through unchanged by both operations. -/
theorem c4_identity_copy_when_small_witness :
    autocompressPdf [3] 1 0 (fun _ => none) = some [3] ∧
    autocompressPptx [3] 1 0 none (fun _ => none) (fun _ _ => none) = some [3] :=
  c4_identity_copy_when_small [3] 1 0 none (fun _ => none) (fun _ _ => none)
    (by norm_num [sizeMB, mbOfBytes])

/-- **C9 (code bug).**  When `convert_to_ppt` raises inside the first trial
of the PPTX-target search, the operation exits by exception with the trial's
scratch PPTX file still on disk: the `finally` block deletes only the
temporary PDF, so the exit leaves one outstanding temporary file — contrary
to the claimed guarantee that every exit path deletes all scratch files. -/
theorem c9_leak_on_conversion_exception :
    (autocompressPdfToPptx [0] 1 0 (fun _ => some [7])
        (fun _ _ => Except.error ())).raised = true ∧
    (autocompressPdfToPptx [0] 1 0 (fun _ => some [7])
        (fun _ _ => Except.error ())).fs.files = [(1, [])] := by
  have hrun : findOptimalDpiForPptx (fun _ => some [7])
      (fun _ _ => Except.error ()) 1 0 FS.empty =
      { state := none, fs := ⟨2, [(1, [])]⟩, posts := [] } := by
    rw [findOptimalDpiForPptx, ITERATIONS, show (7 : ℕ) = 6 + 1 from rfl,
      findOptimalDpiForPptxGo]
    norm_num [initialPState, FS.empty, FS.alloc, FS.write, FS.pathExists,
      FS.getsize, FS.unlink, unlinkBest, mbOfBytes, pyAbs, pyInt]
  constructor <;> simp [autocompressPdfToPptx, hrun]

/-- **C6, counterexample to the frozen claim.**  With every external tool
absent (both strategies report a missing binary) and a valid slide deck
containing zero slides, the text-reconstruction fallback produces no file
(`No slides found in presentation`) and the chain produces no output at all:
the chain is not total over valid slide decks. -/
theorem c6_counterexample :
    convertPptxToPdfCrossPlatform
      (StrategyOutcome.run { exitOk := false, produced := none })
      (StrategyOutcome.run { exitOk := false, produced := none }) [] = none := by
  decide

/-- **C6 (amended).** The PPTX→PDF conversion fallback chain catches every
strategy failure locally and proceeds: whenever both external strategies
soft-fail, the chain's result is exactly the text-reconstruction fallback's;
for every slide deck with at least one slide the chain produces some
paginated-document output; and the chain reports a hard failure (no output)
only when the final fallback itself produces no file. -/
theorem c6_fallback_chain (lo uo : StrategyOutcome) (slides : List Slide) :
    (chainStep tryLibreofficeConversion lo = none →
      chainStep tryUnoconvConversion uo = none →
      convertPptxToPdfCrossPlatform lo uo slides =
        (convertPptxFallbackMethod slides).map Sum.inr) ∧
    (slides ≠ [] → (convertPptxToPdfCrossPlatform lo uo slides).isSome = true) ∧
    (convertPptxToPdfCrossPlatform lo uo slides = none →
      convertPptxFallbackMethod slides = none) := by
  unfold convertPptxToPdfCrossPlatform
  refine ⟨?_, ?_, ?_⟩
  · intro h1 h2
    rw [h1, h2]
  · intro hne
    have hfb : convertPptxFallbackMethod slides = some (fallbackPages 0 slides) := by
      unfold convertPptxFallbackMethod
      rw [if_neg]
      intro hcon
      exact hne (List.length_eq_zero.mp hcon)
    cases h1 : chainStep tryLibreofficeConversion lo with
    | some n => simp
    | none =>
      cases h2 : chainStep tryUnoconvConversion uo with
      | some n => simp
      | none => simp [hfb]
  · intro h
    cases h1 : chainStep tryLibreofficeConversion lo with
    | some n => rw [h1] at h; cases h
    | none =>
      rw [h1] at h
      cases h2 : chainStep tryUnoconvConversion uo with
      | some n => rw [h2] at h; cases h
      | none =>
        rw [h2] at h
        exact Option.map_eq_none.mp h

/-- Witness for C6 (amended) at concrete inputs: with both tools failing,
the chain returns the fallback's one-page output for a one-slide deck. -/
theorem c6_fallback_chain_witness :
    convertPptxToPdfCrossPlatform
        (StrategyOutcome.run { exitOk := false, produced := none })
        StrategyOutcome.raises [⟨[some ['h', 'i']]⟩] =
      (convertPptxFallbackMethod [⟨[some ['h', 'i']]⟩]).map Sum.inr ∧
    (convertPptxToPdfCrossPlatform
        (StrategyOutcome.run { exitOk := false, produced := none })
        StrategyOutcome.raises [⟨[some ['h', 'i']]⟩]).isSome = true := by
  have h := c6_fallback_chain
    (StrategyOutcome.run { exitOk := false, produced := none })
    StrategyOutcome.raises [⟨[some ['h', 'i']]⟩]
  exact ⟨h.1 rfl rfl, h.2.1 (by decide)⟩

/-- **C7, counterexample to the frozen claim.**  A strategy whose tool exits
cleanly but leaves a zero-byte destination file is counted a success by both
`_try_libreoffice_conversion` and `_try_unoconv_conversion` (they only test
`os.path.exists`), while the claim's success definition requires a nonzero
size. -/
theorem c7_counterexample :
    tryLibreofficeConversion { exitOk := true, produced := some 0 } = true ∧
    tryUnoconvConversion { exitOk := true, produced := some 0 } = true ∧
    ¬ specStrategySuccess { exitOk := true, produced := some 0 } := by
  refine ⟨rfl, rfl, ?_⟩
  intro h
  obtain ⟨-, n, hn, hne⟩ := h
  cases hn
  exact hne rfl

/-- **C7 (amended).** For every external conversion strategy in the fallback
chain, the step is counted a success if and only if the invoked tool exits
without error AND the destination file exists afterwards; no size check is
made, so a zero-byte destination file still counts as success, while a
missing destination file after a clean exit is a failure and the chain moves
on. -/
theorem c7_success_is_exit_and_existence (r : ToolRun) :
    (tryLibreofficeConversion r = true ↔
      r.exitOk = true ∧ r.produced.isSome = true) ∧
    (tryUnoconvConversion r = true ↔
      r.exitOk = true ∧ r.produced.isSome = true) := by
  unfold tryLibreofficeConversion tryUnoconvConversion
  constructor <;> simp [Bool.and_eq_true]

theorem collectSlideTexts_mem :
    ∀ (shapes : List (Option (List Char))) (y : ℕ) (t : List Char),
      t ∈ collectSlideTexts y shapes → ∃ u, some u ∈ shapes ∧ t = pyStrip u := by
  intro shapes
  induction shapes with
  | nil => intro y t h; simp [collectSlideTexts] at h
  | cons sh rest ih =>
    intro y t h
    cases sh with
    | none =>
      rw [collectSlideTexts] at h
      obtain ⟨u, hu, ht⟩ := ih y t h
      exact ⟨u, List.mem_cons_of_mem _ hu, ht⟩
    | some u0 =>
      rw [collectSlideTexts] at h
      split at h
      · split at h
        · rw [List.mem_singleton] at h
          exact ⟨u0, List.mem_cons_self _ _, h⟩
        · rcases List.mem_cons.mp h with rfl | h
          · exact ⟨u0, List.mem_cons_self _ _, rfl⟩
          · obtain ⟨u, hu, ht⟩ := ih (y + 60) t h
            exact ⟨u, List.mem_cons_of_mem _ hu, ht⟩
      · obtain ⟨u, hu, ht⟩ := ih y t h
        exact ⟨u, List.mem_cons_of_mem _ hu, ht⟩

theorem fallbackPages_length : ∀ (slides : List Slide) (i : ℕ),
    (fallbackPages i slides).length = slides.length := by
  intro slides
  induction slides with
  | nil => intro i; rfl
  | cons sl rest ih =>
    intro i
    rw [fallbackPages, List.length_cons, List.length_cons, ih]

theorem fallbackPages_forall₂ : ∀ (slides : List Slide) (i : ℕ),
    List.Forall₂ (fun (sl : Slide) (pg : Page) =>
      pg.warning = fallbackWarning ∧
      ∀ t ∈ pg.texts, ∃ u, some u ∈ sl.shapes ∧ t = pyStrip u)
      slides (fallbackPages i slides) := by
  intro slides
  induction slides with
  | nil => intro i; exact List.Forall₂.nil
  | cons sl rest ih =>
    intro i
    rw [fallbackPages]
    exact List.Forall₂.cons
      ⟨rfl, fun t ht => collectSlideTexts_mem sl.shapes 120 t ht⟩ (ih (i + 1))

theorem fallbackPages_get_number :
    ∀ (slides : List Slide) (i k : ℕ) (h : k < (fallbackPages i slides).length),
      ((fallbackPages i slides).get ⟨k, h⟩).slideNumber = i + k + 1 := by
  intro slides
  induction slides with
  | nil => intro i k h; simp [fallbackPages] at h
  | cons sl rest ih =>
    intro i k h
    cases k with
    | zero => rfl
    | succ k =>
      show (((⟨i + 1, collectSlideTexts 120 sl.shapes, fallbackWarning⟩ : Page) ::
          fallbackPages (i + 1) rest).get ⟨k + 1, h⟩).slideNumber = i + (k + 1) + 1
      rw [List.get_cons_succ, ih (i + 1) k]
      omega

/-- **C8.** When the text-reconstruction fallback runs on a deck with at
least one slide, it produces a paginated document containing exactly one
page per input slide; each page's body text comes only from that slide's
text shapes (a stripped text of one of its shapes — images, layout, and
styling ignored), every page carries the visible reduced-fidelity marker,
and the `i`-th page is headed `Slide i+1`. -/
theorem c8_fallback_one_page_per_slide (slides : List Slide) (h : slides ≠ []) :
    ∃ pages, convertPptxFallbackMethod slides = some pages ∧
      pages.length = slides.length ∧
      List.Forall₂ (fun (sl : Slide) (pg : Page) =>
        pg.warning = fallbackWarning ∧
        ∀ t ∈ pg.texts, ∃ u, some u ∈ sl.shapes ∧ t = pyStrip u)
        slides pages ∧
      ∀ k (hk : k < pages.length), (pages.get ⟨k, hk⟩).slideNumber = k + 1 := by
  refine ⟨fallbackPages 0 slides, ?_, fallbackPages_length slides 0,
    fallbackPages_forall₂ slides 0, ?_⟩
  · unfold convertPptxFallbackMethod
    rw [if_neg]
    intro hcon
    exact h (List.length_eq_zero.mp hcon)
  · intro k hk
    rw [fallbackPages_get_number slides 0 k hk]
    omega

/-- Witness for C8 at a concrete one-slide deck whose only text shape is
`" hi "`. -/
theorem c8_fallback_one_page_per_slide_witness :
    ∃ pages, convertPptxFallbackMethod [⟨[some [' ', 'h', 'i', ' '], none]⟩] =
        some pages ∧
      pages.length = ([⟨[some [' ', 'h', 'i', ' '], none]⟩] : List Slide).length ∧
      List.Forall₂ (fun (sl : Slide) (pg : Page) =>
        pg.warning = fallbackWarning ∧
        ∀ t ∈ pg.texts, ∃ u, some u ∈ sl.shapes ∧ t = pyStrip u)
        [⟨[some [' ', 'h', 'i', ' '], none]⟩] pages ∧
      ∀ k (hk : k < pages.length), (pages.get ⟨k, hk⟩).slideNumber = k + 1 :=
  c8_fallback_one_page_per_slide [⟨[some [' ', 'h', 'i', ' '], none]⟩] (by decide)
